import Mathlib

/-!
# custom-assistant-plugin: thread / run orchestration

A shallow embedding of `server/openai_assistant.go`, `server/assistant_handler.go`
and `server/plugin.go`.

* Remote HTTP round trips are made through `send`, which records the request in
  the world's log, lets the environment answer it and advances the clock.
* A Go `error` return is `Result.error`, a run-time panic (index out of range) is
  `Result.panic`.
* The unbounded `for` loop of `pollForCompletion` takes a fuel argument; `none`
  means the fuel ran out before the loop returned.
* Durations are nanoseconds, as in Go's `time.Duration`.
* The reply scan of `getMessages` ranges over `message.Content`, which `Message`
  declares a string, and reads the fields `Type` and `Text.Value` of each
  element; the source declares no such fields, so the two reads are parameters
  (`Env.contentType`, `Env.contentTextValue`).
-/

namespace AssistantPlugin

/-! ## Data model -/

/-- The struct `Configuration` of openai_assistant.go, lines 14-17.
Modelled from the spec: the field `OpenAIAssistantAPIKey`, read at
assistant_handler.go line 168, is not declared in the struct; the spec records
that two differently named key fields appear, so it is kept as a third field. -/
structure Configuration where
  OpenAIAPIKey : String
  AssistantID : String
  OpenAIAssistantAPIKey : String
deriving DecidableEq, Repr

/-- The struct `Message` (openai_assistant.go 24-28, assistant_handler.go 13-17). -/
structure Message where
  Role : String
  Content : String
  ThreadID : String
deriving DecidableEq, Repr

/-- The struct `ThreadResponse` (assistant_handler.go 19-21). -/
structure ThreadResponse where
  ID : String
deriving DecidableEq, Repr

/-- The struct `RunResponse` (assistant_handler.go 23-25). -/
structure RunResponse where
  ID : String
deriving DecidableEq, Repr

/-- The struct `RunStatus` (assistant_handler.go 27-29). -/
structure RunStatus where
  Status : String
deriving DecidableEq, Repr

/-- The struct `MessagesResponse` (assistant_handler.go 31-33): `Data []Message`,
each element with `Content` a string. -/
structure MessagesResponse where
  Data : List Message
deriving DecidableEq, Repr

/-- The struct `AssistantResponse` (assistant_handler.go 35-39). -/
structure AssistantResponse where
  Status : String
  ThreadID : String
  Message : String
deriving DecidableEq, Repr

/-! ## Remote HTTP API -/

/-- The value given to resty's `SetBody`. -/
inductive Payload where
  | empty
  | message (m : Message)
  | fields (kv : List (String × String))
deriving DecidableEq, Repr

/-- An outgoing HTTP request as built with resty. -/
structure Request where
  method : String
  url : String
  headers : List (String × String)
  body : Payload
deriving DecidableEq, Repr

/-- A response body. The plugin does nothing with the bytes of a body except pass
them to `json.Unmarshal` with one of four targets, so a body is represented by
what each of those calls yields (`Except.error` carries the decoder's error). -/
structure Body where
  thread : Except String ThreadResponse
  run : Except String RunResponse
  runStatus : Except String RunStatus
  messages : Except String MessagesResponse

/-- An HTTP response: status code and body. -/
structure Response where
  StatusCode : Nat
  body : Body

/-- What resty's `Post` / `Get` hands back: an error when the round trip itself
failed, a response of any status code otherwise. -/
inductive Outcome where
  | failed (e : String)
  | response (r : Response)

/-! ## Host platform API -/

/-- The fields of `model.Post` the plugin uses. -/
structure Post where
  UserId : String
  ChannelId : String
  Message : String
deriving DecidableEq, Repr

/-- The fields of `model.User` the plugin uses. -/
structure User where
  Id : String
  Username : String
  Password : String
  Email : String
  Nickname : String
  Roles : String
deriving DecidableEq, Repr

/-- The fields of `model.Channel` the plugin uses. -/
structure Channel where
  Id : String
deriving DecidableEq, Repr

/-- The `model.AppError` of the host, by the text of its `Error()`. -/
structure AppError where
  text : String
deriving DecidableEq, Repr

/-- The struct `model.CommandArgs`, by its field `Command`. -/
structure CommandArgs where
  Command : String
deriving DecidableEq, Repr

/-- The struct `model.CommandResponse`, by its field `Text`. -/
structure CommandResponse where
  Text : String
deriving DecidableEq, Repr

/-! ## Errors and results -/

/-- Go `error` values the pipeline produces. -/
inductive Error where
  | transport (e : String)
  | unmarshal (e : String)
  | errorsNew (text : String)
deriving DecidableEq, Repr

/-- The text of `err.Error()`. -/
def Error.text : Error → String
  | .transport e => e
  | .unmarshal e => e
  | .errorsNew t => t

/-- Outcome of a Go function returning `(value, error)`: a value, an error, or a
run-time panic. -/
inductive Result (α : Type) where
  | ok (a : α)
  | error (e : Error)
  | panic (msg : String)
deriving DecidableEq, Repr

/-! ## World and environment -/

/-- Everything the plugin has done so far that is visible from outside. -/
structure World where
  /-- remote HTTP requests issued, oldest first -/
  log : List Request
  /-- monotonic clock reading, in nanoseconds -/
  now : Nat
  /-- number of `time.Sleep` calls that have returned -/
  sleeps : Nat
  /-- posts passed to `CreatePost`, oldest first -/
  posts : List Post
  /-- users passed to `CreateUser`, oldest first -/
  users : List User
  /-- `LogError` calls: message and error text -/
  errors : List (String × String)
deriving DecidableEq, Repr

/-- What the source leaves open. First the behaviour of the outside world: the
remote API (which may answer depending on everything requested so far), the
duration of each round trip, how much longer than asked each sleep lasts, and the
host platform API. Then the two field reads of the reply scan of `getMessages`,
`content.Type` and `content.Text.Value`: `content` ranges over `message.Content`,
a string, so it is a rune, on which the source declares neither field. -/
structure Env where
  respond : List Request → Request → Outcome
  latency : List Request → Request → Nat
  oversleep : Nat → Nat
  BotUserID : String
  GetChannel : String → Except AppError Channel
  GetUserByUsername : String → Except AppError User
  CreatePost : Post → Except AppError Post
  CreateUser : User → Except AppError User
  contentType : Char → String
  contentTextValue : Char → String

/-- Go's `time.Second`. -/
def second : Nat := 1000000000

/-- Go's `time.Millisecond`. -/
def millisecond : Nat := 1000000

/-- One HTTP round trip: the request is logged, time passes, the environment
answers. -/
def send (E : Env) (r : Request) (w : World) : Outcome × World :=
  (E.respond w.log r, { w with log := w.log ++ [r], now := w.now + E.latency w.log r })

/-- Go's `time.Sleep d`: pauses for at least `d`. -/
def sleep (E : Env) (d : Nat) (w : World) : World :=
  { w with now := w.now + d + E.oversleep w.sleeps, sleeps := w.sleeps + 1 }

/-- The host's `LogError(msg, "error", text)`. -/
def logError (msg text : String) (w : World) : World :=
  { w with errors := w.errors ++ [(msg, text)] }

/-! ## Requests built by the plugin -/

/-- Request of `createThread` (openai_assistant.go 81-84). -/
def threadCreateRequest (cfg : Configuration) : Request :=
  { method := "POST"
    url := "https://api.openai.com/v2/threads"
    headers := [("Authorization", "Bearer " ++ cfg.OpenAIAPIKey),
                ("Content-Type", "application/json")]
    body := .empty }

/-- Request of one message append (openai_assistant.go 102-106). -/
def appendRequest (cfg : Configuration) (threadID : String) (message : Message) : Request :=
  { method := "POST"
    url := "https://api.openai.com/v2/threads/" ++ threadID ++ "/messages"
    headers := [("Authorization", "Bearer " ++ cfg.OpenAIAPIKey),
                ("Content-Type", "application/json")]
    body := .message message }

/-- Request of `runAssistant` (openai_assistant.go 123-127). -/
def runCreateRequest (cfg : Configuration) (threadID : String) : Request :=
  { method := "POST"
    url := "https://api.openai.com/v2/threads/" ++ threadID ++ "/runs"
    headers := [("Authorization", "Bearer " ++ cfg.OpenAIAPIKey),
                ("Content-Type", "application/json")]
    body := .fields [("assistant_id", cfg.AssistantID)] }

/-- Request of one status poll (openai_assistant.go 146-148 with
`key = OpenAIAPIKey`, assistant_handler.go 167-169 with
`key = OpenAIAssistantAPIKey`). -/
def statusRequest (key threadID runID : String) : Request :=
  { method := "GET"
    url := "https://api.openai.com/v2/threads/" ++ threadID ++ "/runs/" ++ runID
    headers := [("Authorization", "Bearer " ++ key)]
    body := .empty }

/-- Request of `getMessages` (openai_assistant.go 174-176). -/
def fetchRequest (cfg : Configuration) (threadID : String) : Request :=
  { method := "GET"
    url := "https://api.openai.com/v2/threads/" ++ threadID ++ "/messages"
    headers := [("Authorization", "Bearer " ++ cfg.OpenAIAPIKey)]
    body := .empty }

/-! ## Functions with the same text in both files -/

/-- `createThread` (openai_assistant.go 79-97, assistant_handler.go 122-140). -/
def createThread (E : Env) (cfg : Configuration) (w : World) :
    Result ThreadResponse × World :=
  match send E (threadCreateRequest cfg) w with
  | (.failed e, w1) => (.error (.transport e), w1)
  | (.response resp, w1) =>
    match resp.body.thread with
    | .error e => (.error (.unmarshal e), w1)
    | .ok threadResponse => (.ok threadResponse, w1)

/-- `runAssistant` (openai_assistant.go 121-140, assistant_handler.go 142-161). -/
def runAssistant (E : Env) (cfg : Configuration) (threadID : String) (w : World) :
    Result RunResponse × World :=
  match send E (runCreateRequest cfg threadID) w with
  | (.failed e, w1) => (.error (.transport e), w1)
  | (.response resp, w1) =>
    match resp.body.run with
    | .error e => (.error (.unmarshal e), w1)
    | .ok runResponse => (.ok runResponse, w1)

/-- Inner loop of `getMessages` (openai_assistant.go 190-198) over the elements
of `message.Content`: the first element whose `Type` reads `"text"`. -/
def firstText (E : Env) : List Char → Option Char
  | [] => none
  | content :: rest => if E.contentType content = "text" then some content else firstText E rest

/-- Outer loop of `getMessages` (openai_assistant.go 188-200): messages are
visited in the order received; the first element of an assistant message whose
`Type` reads `"text"` ends the scan, an assistant message without one does not. -/
def scanMessages (E : Env) : List Message → Option Char
  | [] => none
  | message :: rest =>
    if message.Role = "assistant" then
      match firstText E message.Content.data with
      | some content => some content
      | none => scanMessages E rest
    else scanMessages E rest

/-- `getMessages` (openai_assistant.go 172-203, assistant_handler.go 193-224).
The body is decoded into the declared `MessagesResponse`. -/
def getMessages (E : Env) (cfg : Configuration) (threadID : String) (w : World) :
    Result AssistantResponse × World :=
  match send E (fetchRequest cfg threadID) w with
  | (.failed e, w1) => (.error (.transport e), w1)
  | (.response resp, w1) =>
    match resp.body.messages with
    | .error e => (.error (.unmarshal e), w1)
    | .ok messagesResponse =>
      match scanMessages E messagesResponse.Data with
      | some content =>
        (.ok { Status := "success", ThreadID := threadID, Message := E.contentTextValue content }, w1)
      | none => (.error (.errorsNew "assistant\x27s final response not found"), w1)

/-- The `for _, message := range messages` loop of `sendMessageToAssistant`
(openai_assistant.go 101-111) and `callOpenAIAssistant`
(assistant_handler.go 102-112). The response is discarded; only an error from
`Post` ends the loop. -/
def appendMessages (E : Env) (cfg : Configuration) (threadID : String) :
    List Message → World → Result Unit × World
  | [], w => (.ok (), w)
  | message :: rest, w =>
    match send E (appendRequest cfg threadID message) w with
    | (.failed e, w1) => (.error (.transport e), w1)
    | (.response _, w1) => appendMessages E cfg threadID rest w1

/-- The `for` loop of `pollForCompletion` (openai_assistant.go 145-169,
assistant_handler.go 166-190); `key` is the configuration field the copy reads
for the bearer token, `startTime` the reading taken before the loop. -/
def pollLoop (E : Env) (cfg : Configuration) (key threadID runID : String) (startTime : Nat) :
    Nat → World → Option (Result AssistantResponse × World)
  | 0, _ => none
  | fuel + 1, w =>
    match send E (statusRequest key threadID runID) w with
    | (.failed e, w1) => some (.error (.transport e), w1)
    | (.response resp, w1) =>
      match resp.body.runStatus with
      | .error e => some (.error (.unmarshal e), w1)
      | .ok runStatus =>
        if runStatus.Status = "completed" then
          some (getMessages E cfg threadID w1)
        else if w1.now - startTime > 29 * second then
          some (.error (.errorsNew "timeout waiting for the run to complete"), w1)
        else
          pollLoop E cfg key threadID runID startTime fuel (sleep E (500 * millisecond) w1)

/-! ## openai_assistant.go -/

namespace OpenaiAssistant

/-- `getOrCreateThreadID` (openai_assistant.go 68-77). Indexing `messages[0]` on
an empty slice panics. -/
def getOrCreateThreadID (E : Env) (cfg : Configuration) (messages : List Message) (w : World) :
    Result String × World :=
  match messages with
  | [] => (.panic "runtime error: index out of range [0] with length 0", w)
  | first :: _ =>
    if first.ThreadID = "0" then
      match createThread E cfg w with
      | (.ok threadResponse, w1) => (.ok threadResponse.ID, w1)
      | (.error err, w1) => (.error err, w1)
      | (.panic msg, w1) => (.panic msg, w1)
    else (.ok first.ThreadID, w)

/-- `pollForCompletion` (openai_assistant.go 142-170): the bearer token of the
status poll is `OpenAIAPIKey`. -/
def pollForCompletion (E : Env) (cfg : Configuration) (threadID runID : String)
    (fuel : Nat) (w : World) : Option (Result AssistantResponse × World) :=
  pollLoop E cfg cfg.OpenAIAPIKey threadID runID w.now fuel w

/-- `sendMessageToAssistant` (openai_assistant.go 99-119). -/
def sendMessageToAssistant (E : Env) (cfg : Configuration) (threadID : String)
    (messages : List Message) (fuel : Nat) (w : World) :
    Option (Result AssistantResponse × World) :=
  match appendMessages E cfg threadID messages w with
  | (.error err, w1) => some (.error err, w1)
  | (.panic msg, w1) => some (.panic msg, w1)
  | (.ok _, w1) =>
    match runAssistant E cfg threadID w1 with
    | (.error err, w2) => some (.error err, w2)
    | (.panic msg, w2) => some (.panic msg, w2)
    | (.ok runResponse, w2) => pollForCompletion E cfg threadID runResponse.ID fuel w2

/-- An incoming HTTP request: its method, and what
`json.NewDecoder(r.Body).Decode(&messages)` yields on its body. -/
structure HttpRequest where
  Method : String
  Body : Except String (List Message)

/-- What has been written to the `http.ResponseWriter`. -/
inductive ResponseBody where
  | text (s : String)
  | json (a : AssistantResponse)
deriving DecidableEq, Repr

/-- The response the handler wrote. -/
structure HttpResponse where
  StatusCode : Nat
  ContentType : String
  Body : ResponseBody
deriving DecidableEq, Repr

/-- How a call of the handler ends: with a response written, or with a panic
that unwinds it before anything is written. -/
inductive Served where
  | wrote (r : HttpResponse)
  | panicked (msg : String)
deriving DecidableEq, Repr

/-- Go's `http.Error(w, msg, code)`. -/
def httpError (msg : String) (code : Nat) : Served :=
  .wrote { StatusCode := code, ContentType := "text/plain; charset=utf-8",
           Body := .text (msg ++ "\n") }

/-- `ServeHTTP` (openai_assistant.go 39-66). -/
def ServeHTTP (E : Env) (cfg : Configuration) (r : HttpRequest) (fuel : Nat) (w : World) :
    Option (Served × World) :=
  if r.Method ≠ "POST" then
    some (httpError "Invalid request method" 405, w)
  else
    match r.Body with
    | .error _ => some (httpError "Failed to decode request body" 400, w)
    | .ok messages =>
      match getOrCreateThreadID E cfg messages w with
      | (.panic msg, w1) => some (.panicked msg, w1)
      | (.error _, w1) => some (httpError "Failed to get or create thread ID" 500, w1)
      | (.ok threadID, w1) =>
        match sendMessageToAssistant E cfg threadID messages fuel w1 with
        | none => none
        | some (.panic msg, w2) => some (.panicked msg, w2)
        | some (.error _, w2) => some (httpError "Failed to send message to assistant" 500, w2)
        | some (.ok response, w2) =>
          some (.wrote { StatusCode := 200, ContentType := "application/json",
                         Body := .json response }, w2)

end OpenaiAssistant

/-! ## assistant_handler.go -/

namespace AssistantHandler

/-- `pollForCompletion` (assistant_handler.go 163-191): the bearer token of the
status poll is `OpenAIAssistantAPIKey`. -/
def pollForCompletion (E : Env) (cfg : Configuration) (threadID runID : String)
    (fuel : Nat) (w : World) : Option (Result AssistantResponse × World) :=
  pollLoop E cfg cfg.OpenAIAssistantAPIKey threadID runID w.now fuel w

/-- `callOpenAIAssistant` (assistant_handler.go 89-120). -/
def callOpenAIAssistant (E : Env) (cfg : Configuration) (messages : List Message)
    (fuel : Nat) (w : World) : Option (Result AssistantResponse × World) :=
  match messages with
  | [] => some (.panic "runtime error: index out of range [0] with length 0", w)
  | first :: _ =>
    let resolved : Result String × World :=
      if first.ThreadID = "0" then
        match createThread E cfg w with
        | (.ok threadResponse, w1) => (.ok threadResponse.ID, w1)
        | (.error err, w1) => (.error err, w1)
        | (.panic msg, w1) => (.panic msg, w1)
      else (.ok first.ThreadID, w)
    match resolved with
    | (.error err, w1) => some (.error err, w1)
    | (.panic msg, w1) => some (.panic msg, w1)
    | (.ok threadID, w1) =>
      match appendMessages E cfg threadID messages w1 with
      | (.error err, w2) => some (.error err, w2)
      | (.panic msg, w2) => some (.panic msg, w2)
      | (.ok _, w2) =>
        match runAssistant E cfg threadID w2 with
        | (.error err, w3) => some (.error err, w3)
        | (.panic msg, w3) => some (.panic msg, w3)
        | (.ok runResponse, w3) => pollForCompletion E cfg threadID runResponse.ID fuel w3

/-- `MessageHasBeenPosted` (assistant_handler.go 41-87). -/
def MessageHasBeenPosted (E : Env) (cfg : Configuration) (post : Post) (fuel : Nat)
    (w : World) : Option (Result Unit × World) :=
  if post.UserId = E.BotUserID then some (.ok (), w)
  else
    match E.GetChannel post.ChannelId with
    | .error err => some (.ok (), logError "Failed to get channel" err.text w)
    | .ok _ =>
      match E.GetUserByUsername "ai-assistant" with
      | .error err => some (.ok (), logError "Failed to get AI assistant user" err.text w)
      | .ok aiUser =>
        let messages : List Message :=
          [{ Role := "user", Content := post.Message, ThreadID := "0" }]
        match callOpenAIAssistant E cfg messages fuel w with
        | none => none
        | some (.panic msg, w1) => some (.panic msg, w1)
        | some (.error err, w1) =>
          some (.ok (), logError "Failed to call OpenAI assistant" err.text w1)
        | some (.ok assistantResponse, w1) =>
          let aiPost : Post :=
            { UserId := aiUser.Id, ChannelId := post.ChannelId,
              Message := assistantResponse.Message }
          let w2 : World := { w1 with posts := w1.posts ++ [aiPost] }
          match E.CreatePost aiPost with
          | .error err => some (.ok (), logError "Failed to create post" err.text w2)
          | .ok _ => some (.ok (), w2)

end AssistantHandler

/-! ## plugin.go -/

namespace PluginGo

/-- Go's `unicode.IsSpace`. -/
def isSpace (c : Char) : Bool :=
  c = '\t' || c = '\n' || c = Char.ofNat 0x0B || c = Char.ofNat 0x0C || c = '\r' || c = ' '
    || c = Char.ofNat 0x85 || c = Char.ofNat 0xA0 || c = Char.ofNat 0x1680
    || (0x2000 ≤ c.toNat && c.toNat ≤ 0x200A)
    || c = Char.ofNat 0x2028 || c = Char.ofNat 0x2029 || c = Char.ofNat 0x202F
    || c = Char.ofNat 0x205F || c = Char.ofNat 0x3000

/-- Scan of `strings.Fields`: `cur` is the field being read. -/
def fieldsFrom : List Char → List Char → List String
  | [], cur => if cur = [] then [] else [String.mk cur]
  | c :: cs, cur =>
    if isSpace c then
      if cur = [] then fieldsFrom cs [] else String.mk cur :: fieldsFrom cs []
    else fieldsFrom cs (cur ++ [c])

/-- Go's `strings.Fields`: the maximal runs of non-space characters. -/
def stringsFields (s : String) : List String :=
  fieldsFrom s.data []

/-- `ExecuteCommand` (plugin.go 23-54). The `*model.AppError` it returns is
always nil and is left out. -/
def ExecuteCommand (E : Env) (args : CommandArgs) (w : World) : CommandResponse × World :=
  if args.Command = "/createai" then
    let parts := stringsFields args.Command
    if h : parts.length ≠ 2 then
      ({ Text := "Usage: /createai [username]" }, w)
    else
      let username := parts[1]
      let user : User :=
        { Id := "", Username := username, Password := "securepassword",
          Email := username ++ "@example.com", Nickname := "AI Assistant",
          Roles := "system_user" }
      let w1 : World := { w with users := w.users ++ [user] }
      match E.CreateUser user with
      | .error err =>
        ({ Text := "Failed to create AI assistant user: " ++ err.text }, w1)
      | .ok _ => ({ Text := "AI assistant user created successfully." }, w1)
  else ({ Text := "" }, w)

/-- `MessageHasBeenPosted` (plugin.go 57-94). -/
def MessageHasBeenPosted (E : Env) (cfg : Configuration) (post : Post) (fuel : Nat)
    (w : World) : Option (Result Unit × World) :=
  if post.UserId = E.BotUserID then some (.ok (), w)
  else
    match E.GetUserByUsername "ai-assistant" with
    | .error err => some (.ok (), logError "Failed to get AI assistant user" err.text w)
    | .ok aiUser =>
      let messages : List Message :=
        [{ Role := "user", Content := post.Message, ThreadID := "0" }]
      match AssistantHandler.callOpenAIAssistant E cfg messages fuel w with
      | none => none
      | some (.panic msg, w1) => some (.panic msg, w1)
      | some (.error err, w1) =>
        some (.ok (), logError "Failed to call OpenAI assistant" err.text w1)
      | some (.ok assistantResponse, w1) =>
        let aiPost : Post :=
          { UserId := aiUser.Id, ChannelId := post.ChannelId,
            Message := assistantResponse.Message }
        let w2 : World := { w1 with posts := w1.posts ++ [aiPost] }
        match E.CreatePost aiPost with
        | .error err => some (.ok (), logError "Failed to create post" err.text w2)
        | .ok _ => some (.ok (), w2)

end PluginGo

/-! ## Vocabulary of the statements -/

/-- The request is a thread-create call: `POST /threads`. -/
def isThreadCreate (r : Request) : Prop :=
  r.method = "POST" ∧ r.url = "https://api.openai.com/v2/threads"

/-- The request is one of the calls the pipeline makes on thread `threadID`: an
append, the run-create, a status poll or the message fetch. -/
def onThread (cfg : Configuration) (threadID : String) (r : Request) : Prop :=
  (∃ m, r = appendRequest cfg threadID m) ∨ r = runCreateRequest cfg threadID ∨
    (∃ key runID, r = statusRequest key threadID runID) ∨ r = fetchRequest cfg threadID

/-- One round of the poll loop that does not leave it: the status poll, then the
500 ms sleep. -/
def pollRound (E : Env) (req : Request) (w : World) : World :=
  sleep E (500 * millisecond) (send E req w).2

/-- The world after `n` rounds of the poll loop that did not leave it. -/
def afterRounds (E : Env) (req : Request) : Nat → World → World
  | 0, w => w
  | n + 1, w => afterRounds E req n (pollRound E req w)

namespace OpenaiAssistant

/-- The sequence `getOrCreateThreadID`, then `sendMessageToAssistant` on the ID
it returned, as `ServeHTTP` runs it (openai_assistant.go 52-62). -/
def pipeline (E : Env) (cfg : Configuration) (messages : List Message) (fuel : Nat)
    (w : World) : Option (Result AssistantResponse × World) :=
  match getOrCreateThreadID E cfg messages w with
  | (.panic msg, w1) => some (.panic msg, w1)
  | (.error err, w1) => some (.error err, w1)
  | (.ok threadID, w1) => sendMessageToAssistant E cfg threadID messages fuel w1

end OpenaiAssistant

/-- The part both copies share after the thread ID is known
(openai_assistant.go 100-118, assistant_handler.go 102-119): the appends, the
run-create and the poll loop started at the current clock reading; `key` is the
bearer key of the status polls. -/
def sendAndPoll (E : Env) (cfg : Configuration) (key threadID : String)
    (messages : List Message) (fuel : Nat) (w : World) :
    Option (Result AssistantResponse × World) :=
  match appendMessages E cfg threadID messages w with
  | (.error err, w1) => some (.error err, w1)
  | (.panic msg, w1) => some (.panic msg, w1)
  | (.ok _, w1) =>
    match runAssistant E cfg threadID w1 with
    | (.error err, w2) => some (.error err, w2)
    | (.panic msg, w2) => some (.panic msg, w2)
    | (.ok runResponse, w2) => pollLoop E cfg key threadID runResponse.ID w2.now fuel w2

/-! ## Sample environments -/

namespace Sample

/-- Body `{"id": id}`: decodes as a thread or run response with that ID, and as
an empty run status or message list. -/
def idBody (id : String) : Body :=
  { thread := .ok ⟨id⟩, run := .ok ⟨id⟩, runStatus := .ok ⟨""⟩, messages := .ok ⟨[]⟩ }

/-- Body `{"status": s}`. -/
def statusBody (s : String) : Body :=
  { thread := .ok ⟨""⟩, run := .ok ⟨""⟩, runStatus := .ok ⟨s⟩, messages := .ok ⟨[]⟩ }

/-- Body `{"data": [...]}` whose messages have a string as `content`. -/
def dataBody (data : List Message) : Body :=
  { thread := .ok ⟨""⟩, run := .ok ⟨""⟩, runStatus := .ok ⟨""⟩, messages := .ok ⟨data⟩ }

/-- Body `{"data": [{"role": "assistant", "content": [{"type": "text", "text":
{"value": "hello!"}}]}]}`, a message list as the remote API lists it: `content`
is an array of items. Decoding it into `MessagesResponse` fails with an
`UnmarshalTypeError`, since `Content` is declared a string; the other three
targets have no field `data` and decode to their zero value. -/
def itemsBody : Body :=
  { thread := .ok ⟨""⟩, run := .ok ⟨""⟩, runStatus := .ok ⟨""⟩,
    messages :=
      .error "json: cannot unmarshal array into Go struct field Message.data.content of type string" }

/-- A body that is not JSON. -/
def badBody : Body :=
  { thread := .error "invalid character", run := .error "invalid character",
    runStatus := .error "invalid character", messages := .error "invalid character" }

/-- An environment whose remote API gives its `n`-th answer to the `n`-th
request (then refuses connections), whose round trips take `lat` nanoseconds,
whose sleeps last exactly as asked, and whose host knows the bot user `"bot"` and
the user `"ai-assistant"` with ID `"ai1"`. Every element of a message content
reads as a text item with the value `hello!`. -/
def scripted (answers : List Outcome) (lat : Nat) : Env :=
  { respond := fun log _ => answers.getD log.length (.failed "connection refused")
    latency := fun _ _ => lat
    oversleep := fun _ => 0
    BotUserID := "bot"
    GetChannel := fun id => .ok ⟨id⟩
    GetUserByUsername := fun name =>
      if name = "ai-assistant" then
        .ok { Id := "ai1", Username := name, Password := "", Email := "", Nickname := "",
              Roles := "" }
      else .error ⟨"user not found"⟩
    CreatePost := fun p => .ok p
    CreateUser := fun u => .ok u
    contentType := fun _ => "text"
    contentTextValue := fun _ => "hello!" }

/-- An environment whose every status poll answers `in_progress`. -/
def stalled (lat : Nat) : Env :=
  { scripted [] lat with
    respond := fun _ _ => .response ⟨200, statusBody "in_progress"⟩ }

/-- A world in which nothing has happened yet. -/
def w0 : World :=
  { log := [], now := 0, sleeps := 0, posts := [], users := [], errors := [] }

/-- A configuration whose two key fields differ. -/
def cfg : Configuration :=
  { OpenAIAPIKey := "k1", AssistantID := "a1", OpenAIAssistantAPIKey := "k2" }

/-- The message of the end-to-end scenario. -/
def hi : Message := { Role := "user", Content := "hi", ThreadID := "0" }

/-- One assistant message, `{"role": "assistant", "content": "hello!"}`. -/
def hello : List Message :=
  [{ Role := "assistant", Content := "hello!", ThreadID := "" }]

/-- The remote API of the end-to-end scenario: thread `t1`, append accepted,
run `r1`, status `in_progress` then `completed`, one assistant message. -/
def happy : Env :=
  scripted [.response ⟨200, idBody "t1"⟩, .response ⟨200, idBody "m1"⟩,
            .response ⟨200, idBody "r1"⟩, .response ⟨200, statusBody "in_progress"⟩,
            .response ⟨200, statusBody "completed"⟩, .response ⟨200, dataBody hello⟩] 1000000

/-- A remote API whose first answer is the message list `itemsBody`. -/
def itemsFirst : Env :=
  scripted [.response ⟨200, itemsBody⟩] 1000000

/-- The remote API of the end-to-end scenario, serving its message list as
`itemsBody`. -/
def happyItems : Env :=
  scripted [.response ⟨200, idBody "t1"⟩, .response ⟨200, idBody "m1"⟩,
            .response ⟨200, idBody "r1"⟩, .response ⟨200, statusBody "in_progress"⟩,
            .response ⟨200, statusBody "completed"⟩, .response ⟨200, itemsBody⟩] 1000000

/-- A remote API whose first answer is HTTP 500 with the body `{"id": "t1"}`. -/
def serverError : Env :=
  scripted [.response ⟨500, idBody "t1"⟩] 1000000

/-- A slow remote API: every round trip takes 20 s; the status is `in_progress`,
then `completed`, then the message list `hello` is served. -/
def slow : Env :=
  scripted [.response ⟨200, statusBody "in_progress"⟩, .response ⟨200, statusBody "completed"⟩,
            .response ⟨200, dataBody hello⟩] (20 * second)

/-- Three user messages for the thread `t9`. -/
def three : List Message :=
  [{ Role := "user", Content := "one", ThreadID := "t9" },
   { Role := "user", Content := "two", ThreadID := "t9" },
   { Role := "user", Content := "three", ThreadID := "t9" }]

/-- A remote API that accepts the first request and drops the connection on the
second. -/
def dropsSecond : Env :=
  scripted [.response ⟨200, idBody "m1"⟩, .failed "connection reset"] 1000000

/-- A remote API whose first answer is HTTP 200 with a body that is not JSON. -/
def garbled : Env :=
  scripted [.response ⟨200, badBody⟩] 1000000

/-- A remote API that refuses every connection. -/
def down : Env :=
  scripted [] 1000000

/-- The remote API of the end-to-end scenario, serving the same six answers
again for every further conversation. -/
def looping : Env :=
  { happy with
    respond := fun log _ =>
      [Outcome.response ⟨200, idBody "t1"⟩, .response ⟨200, idBody "m1"⟩,
        .response ⟨200, idBody "r1"⟩, .response ⟨200, statusBody "in_progress"⟩,
        .response ⟨200, statusBody "completed"⟩, .response ⟨200, dataBody hello⟩].getD
        (log.length % 6) (.failed "connection refused") }

/-- A post by a human user. -/
def humanPost : Post := { UserId := "u1", ChannelId := "c1", Message := "hi" }

/-- The reply the plugin posts in the end-to-end scenario, under the ID of the
user looked up as `ai-assistant`. -/
def replyPost : Post := { UserId := "ai1", ChannelId := "c1", Message := "hello!" }

/-- A remote API for an existing thread: three appends accepted, run `r1`,
status `completed` at once, one assistant message. -/
def existing : Env :=
  scripted [.response ⟨200, idBody "m1"⟩, .response ⟨200, idBody "m2"⟩,
            .response ⟨200, idBody "m3"⟩, .response ⟨200, idBody "r1"⟩,
            .response ⟨200, statusBody "completed"⟩, .response ⟨200, dataBody hello⟩] 1000000

end Sample

/-! ## Basic facts about round trips -/

theorem send_fst (E : Env) (r : Request) (w : World) : (send E r w).1 = E.respond w.log r := rfl

theorem send_log (E : Env) (r : Request) (w : World) : (send E r w).2.log = w.log ++ [r] := rfl

theorem send_now (E : Env) (r : Request) (w : World) :
    (send E r w).2.now = w.now + E.latency w.log r := rfl

theorem sleep_log (E : Env) (d : Nat) (w : World) : (sleep E d w).log = w.log := rfl

theorem sleep_now (E : Env) (d : Nat) (w : World) :
    (sleep E d w).now = w.now + d + E.oversleep w.sleeps := rfl

theorem createThread_eq (E : Env) (cfg : Configuration) (w : World) :
    createThread E cfg w =
      (match E.respond w.log (threadCreateRequest cfg) with
        | .failed e => .error (.transport e)
        | .response resp =>
          match resp.body.thread with
          | .error e => .error (.unmarshal e)
          | .ok t => .ok t,
       (send E (threadCreateRequest cfg) w).2) := by
  unfold createThread send
  cases E.respond w.log (threadCreateRequest cfg) with
  | failed e => rfl
  | response resp => cases h : resp.body.thread <;> simp [h]

theorem runAssistant_eq (E : Env) (cfg : Configuration) (threadID : String) (w : World) :
    runAssistant E cfg threadID w =
      (match E.respond w.log (runCreateRequest cfg threadID) with
        | .failed e => .error (.transport e)
        | .response resp =>
          match resp.body.run with
          | .error e => .error (.unmarshal e)
          | .ok t => .ok t,
       (send E (runCreateRequest cfg threadID) w).2) := by
  unfold runAssistant send
  cases E.respond w.log (runCreateRequest cfg threadID) with
  | failed e => rfl
  | response resp => cases h : resp.body.run <;> simp [h]

theorem getMessages_eq (E : Env) (cfg : Configuration) (threadID : String) (w : World) :
    getMessages E cfg threadID w =
      (match E.respond w.log (fetchRequest cfg threadID) with
        | .failed e => .error (.transport e)
        | .response resp =>
          match resp.body.messages with
          | .error e => .error (.unmarshal e)
          | .ok messagesResponse =>
            match scanMessages E messagesResponse.Data with
            | some content =>
              .ok { Status := "success", ThreadID := threadID, Message := E.contentTextValue content }
            | none => .error (.errorsNew "assistant\x27s final response not found"),
       (send E (fetchRequest cfg threadID) w).2) := by
  unfold getMessages send
  cases E.respond w.log (fetchRequest cfg threadID) with
  | failed e => rfl
  | response resp =>
    cases h : resp.body.messages with
    | error e => simp [h]
    | ok m => cases h2 : scanMessages E m.Data <;> simp [h, h2]

/-! ## The poll loop -/

theorem statusRequest_ne_fetchRequest (cfg : Configuration) (key threadID runID : String) :
    fetchRequest cfg threadID ≠ statusRequest key threadID runID := by
  intro h
  have hu := congrArg Request.url h
  simp only [fetchRequest, statusRequest] at hu
  have hd := congrArg String.data hu
  simp [String.data_append] at hd

theorem afterRounds_succ (E : Env) (req : Request) (n : Nat) (w : World) :
    afterRounds E req (n + 1) w = afterRounds E req n (pollRound E req w) := rfl

theorem pollRound_log (E : Env) (req : Request) (w : World) :
    (pollRound E req w).log = w.log ++ [req] := rfl

theorem pollRound_now (E : Env) (req : Request) (w : World) :
    w.now + 500 * millisecond ≤ (pollRound E req w).now := by
  simp only [pollRound, sleep_now, send_now]
  omega

theorem afterRounds_log (E : Env) (req : Request) (n : Nat) (w : World) :
    (afterRounds E req n w).log = w.log ++ List.replicate n req := by
  induction n generalizing w with
  | zero => simp [afterRounds]
  | succ n ih =>
    rw [afterRounds_succ, ih, pollRound_log, List.replicate_succ]
    simp

theorem afterRounds_now (E : Env) (req : Request) (n : Nat) (w : World) :
    w.now + n * (500 * millisecond) ≤ (afterRounds E req n w).now := by
  induction n generalizing w with
  | zero => simp [afterRounds]
  | succ n ih =>
    rw [afterRounds_succ]
    have h1 := ih (pollRound E req w)
    have h2 := pollRound_now E req w
    have h3 : (n + 1) * (500 * millisecond) = n * (500 * millisecond) + 500 * millisecond := by
      ring
    omega

theorem pollLoop_failed (E : Env) (cfg : Configuration) (key threadID runID : String)
    (startTime fuel : Nat) (w : World) (e : String)
    (h : E.respond w.log (statusRequest key threadID runID) = .failed e) :
    pollLoop E cfg key threadID runID startTime (fuel + 1) w
      = some (.error (.transport e), (send E (statusRequest key threadID runID) w).2) := by
  simp only [pollLoop, send, h]

theorem pollLoop_undecodable (E : Env) (cfg : Configuration) (key threadID runID : String)
    (startTime fuel : Nat) (w : World) (resp : Response) (e : String)
    (h : E.respond w.log (statusRequest key threadID runID) = .response resp)
    (hs : resp.body.runStatus = .error e) :
    pollLoop E cfg key threadID runID startTime (fuel + 1) w
      = some (.error (.unmarshal e), (send E (statusRequest key threadID runID) w).2) := by
  simp only [pollLoop, send, h, hs]

theorem pollLoop_completed (E : Env) (cfg : Configuration) (key threadID runID : String)
    (startTime fuel : Nat) (w : World) (resp : Response) (s : RunStatus)
    (h : E.respond w.log (statusRequest key threadID runID) = .response resp)
    (hs : resp.body.runStatus = .ok s) (hc : s.Status = "completed") :
    pollLoop E cfg key threadID runID startTime (fuel + 1) w
      = some (getMessages E cfg threadID (send E (statusRequest key threadID runID) w).2) := by
  simp only [pollLoop, send, h, hs, hc, if_true]

theorem pollLoop_timeout (E : Env) (cfg : Configuration) (key threadID runID : String)
    (startTime fuel : Nat) (w : World) (resp : Response) (s : RunStatus)
    (h : E.respond w.log (statusRequest key threadID runID) = .response resp)
    (hs : resp.body.runStatus = .ok s) (hc : s.Status ≠ "completed")
    (ht : (send E (statusRequest key threadID runID) w).2.now - startTime > 29 * second) :
    pollLoop E cfg key threadID runID startTime (fuel + 1) w
      = some (.error (.errorsNew "timeout waiting for the run to complete"),
          (send E (statusRequest key threadID runID) w).2) := by
  simp only [send] at ht
  simp only [pollLoop, send, h, hs, hc, if_false, ht, if_true]

theorem pollLoop_continue (E : Env) (cfg : Configuration) (key threadID runID : String)
    (startTime fuel : Nat) (w : World) (resp : Response) (s : RunStatus)
    (h : E.respond w.log (statusRequest key threadID runID) = .response resp)
    (hs : resp.body.runStatus = .ok s) (hc : s.Status ≠ "completed")
    (ht : ¬ (send E (statusRequest key threadID runID) w).2.now - startTime > 29 * second) :
    pollLoop E cfg key threadID runID startTime (fuel + 1) w
      = pollLoop E cfg key threadID runID startTime fuel
          (pollRound E (statusRequest key threadID runID) w) := by
  simp only [send] at ht
  simp only [pollLoop, send, h, hs, hc, if_false, ht, pollRound]

/-- The loop leaves at the first `completed` status, whatever the clock reads
then, provided the earlier rounds neither completed nor timed out. -/
theorem pollLoop_first_completed (E : Env) (cfg : Configuration)
    (key threadID runID : String) (startTime : Nat) :
    ∀ (k fuel : Nat) (w : World), k < fuel →
      (∀ i, i < k → ∃ resp s,
        (send E (statusRequest key threadID runID)
            (afterRounds E (statusRequest key threadID runID) i w)).1 = .response resp ∧
          resp.body.runStatus = .ok s ∧ s.Status ≠ "completed" ∧
          (send E (statusRequest key threadID runID)
            (afterRounds E (statusRequest key threadID runID) i w)).2.now - startTime
              ≤ 29 * second) →
      (∃ resp s,
        (send E (statusRequest key threadID runID)
            (afterRounds E (statusRequest key threadID runID) k w)).1 = .response resp ∧
          resp.body.runStatus = .ok s ∧ s.Status = "completed") →
      pollLoop E cfg key threadID runID startTime fuel w
        = some (getMessages E cfg threadID
            (send E (statusRequest key threadID runID)
              (afterRounds E (statusRequest key threadID runID) k w)).2) := by
  intro k
  induction k with
  | zero =>
    intro fuel w hf _ hdone
    obtain ⟨resp, s, h1, h2, h3⟩ := hdone
    obtain ⟨f, rfl⟩ : ∃ f, fuel = f + 1 := ⟨fuel - 1, by omega⟩
    exact pollLoop_completed E cfg key threadID runID startTime f w resp s h1 h2 h3
  | succ k ih =>
    intro fuel w hf hearly hdone
    obtain ⟨f, rfl⟩ : ∃ f, fuel = f + 1 := ⟨fuel - 1, by omega⟩
    obtain ⟨resp, s, h1, h2, h3, h4⟩ := hearly 0 (by omega)
    rw [pollLoop_continue E cfg key threadID runID startTime f w resp s h1 h2 h3 (by
      simp only [afterRounds] at h4; omega)]
    rw [afterRounds_succ]
    apply ih f _ (by omega)
    · intro i hi
      have := hearly (i + 1) (by omega)
      rwa [afterRounds_succ] at this
    · rwa [afterRounds_succ] at hdone

/-- When every status poll answers a status other than `completed`, the loop
ends with the timeout error at the first poll after which more than 29 s have
passed. -/
theorem pollLoop_stalled (E : Env) (cfg : Configuration) (key threadID runID : String)
    (startTime : Nat)
    (hall : ∀ log, ∃ resp s, E.respond log (statusRequest key threadID runID) = .response resp ∧
      resp.body.runStatus = .ok s ∧ s.Status ≠ "completed") :
    ∀ (fuel : Nat) (w : World), 0 < fuel →
      startTime + 29 * second + 500 * millisecond < w.now + fuel * (500 * millisecond) →
      ∃ n, n < fuel ∧
        pollLoop E cfg key threadID runID startTime fuel w
          = some (.error (.errorsNew "timeout waiting for the run to complete"),
              (send E (statusRequest key threadID runID)
                (afterRounds E (statusRequest key threadID runID) n w)).2) ∧
        (send E (statusRequest key threadID runID)
            (afterRounds E (statusRequest key threadID runID) n w)).2.now - startTime
          > 29 * second ∧
        ∀ i, i < n →
          (send E (statusRequest key threadID runID)
            (afterRounds E (statusRequest key threadID runID) i w)).2.now - startTime
              ≤ 29 * second := by
  intro fuel
  induction fuel with
  | zero => intro w h; omega
  | succ f ih =>
    intro w _ hbudget
    obtain ⟨resp, s, h1, h2, h3⟩ := hall w.log
    by_cases ht : (send E (statusRequest key threadID runID) w).2.now - startTime > 29 * second
    · refine ⟨0, by omega, ?_, ?_, ?_⟩
      · exact pollLoop_timeout E cfg key threadID runID startTime f w resp s h1 h2 h3 ht
      · exact ht
      · intro i hi; omega
    · have hnow := pollRound_now E (statusRequest key threadID runID) w
      have hsend : w.now ≤ (send E (statusRequest key threadID runID) w).2.now := by
        rw [send_now]; omega
      have hround : (send E (statusRequest key threadID runID) w).2.now + 500 * millisecond
          ≤ (pollRound E (statusRequest key threadID runID) w).now := by
        simp only [pollRound, sleep_now]; omega
      have hsucc : (f + 1) * (500 * millisecond) = f * (500 * millisecond) + 500 * millisecond := by
        ring
      have hf : 0 < f := by
        rcases Nat.eq_zero_or_pos f with h0 | hpos
        · subst h0
          simp only [second, millisecond] at *
          omega
        · exact hpos
      obtain ⟨n, hn, hrun, hover, hunder⟩ :=
        ih (pollRound E (statusRequest key threadID runID) w) hf (by
          simp only [second, millisecond] at *
          omega)
      refine ⟨n + 1, by omega, ?_, ?_, ?_⟩
      · rw [pollLoop_continue E cfg key threadID runID startTime f w resp s h1 h2 h3 ht,
          afterRounds_succ]
        exact hrun
      · rw [afterRounds_succ]; exact hover
      · intro i hi
        cases i with
        | zero => simp only [afterRounds]; omega
        | succ j => rw [afterRounds_succ]; exact hunder j (by omega)

theorem getMessages_log (E : Env) (cfg : Configuration) (threadID : String) (w : World) :
    (getMessages E cfg threadID w).2.log = w.log ++ [fetchRequest cfg threadID] := by
  rw [getMessages_eq]; rfl

theorem getMessages_ok (E : Env) (cfg : Configuration) (threadID : String) (w : World)
    (a : AssistantResponse) (h : (getMessages E cfg threadID w).1 = .ok a) :
    a.ThreadID = threadID ∧ a.Status = "success" := by
  rw [getMessages_eq] at h
  simp only at h
  split at h
  · cases h
  · split at h
    · cases h
    · split at h
      · cases h; exact ⟨rfl, rfl⟩
      · cases h

theorem getMessages_no_panic (E : Env) (cfg : Configuration) (threadID : String) (w : World)
    (msg : String) : (getMessages E cfg threadID w).1 ≠ .panic msg := by
  rw [getMessages_eq]
  simp only
  intro h
  split at h
  · cases h
  · split at h
    · cases h
    · split at h <;> cases h

/-- With enough fuel the loop returns, having issued `n ≥ 1` status polls and
then at most the message fetch; a response it returns carries the thread ID. -/
theorem pollLoop_shape (E : Env) (cfg : Configuration) (key threadID runID : String)
    (startTime : Nat) :
    ∀ (fuel : Nat) (w : World), 0 < fuel →
      startTime + 29 * second + 500 * millisecond < w.now + fuel * (500 * millisecond) →
      ∃ out w' n, 0 < n ∧
        pollLoop E cfg key threadID runID startTime fuel w = some (out, w') ∧
        (w'.log = w.log ++ List.replicate n (statusRequest key threadID runID) ∨
          w'.log = w.log ++ List.replicate n (statusRequest key threadID runID)
            ++ [fetchRequest cfg threadID]) ∧
        (∀ a, out = .ok a → a.ThreadID = threadID ∧ a.Status = "success") ∧
        (∀ msg, out ≠ .panic msg) := by
  intro fuel
  induction fuel with
  | zero => intro w h; omega
  | succ f ih =>
    intro w _ hbudget
    cases h1 : E.respond w.log (statusRequest key threadID runID) with
    | failed e =>
      refine ⟨_, _, 1, by omega, pollLoop_failed E cfg key threadID runID startTime f w e h1,
        Or.inl ?_, ?_, ?_⟩
      · simp [send_log]
      · intro a ha; cases ha
      · intro msg hm; cases hm
    | response resp =>
      cases h2 : resp.body.runStatus with
      | error e =>
        refine ⟨_, _, 1, by omega,
          pollLoop_undecodable E cfg key threadID runID startTime f w resp e h1 h2,
          Or.inl ?_, ?_, ?_⟩
        · simp [send_log]
        · intro a ha; cases ha
        · intro msg hm; cases hm
      | ok s =>
        by_cases h3 : s.Status = "completed"
        · refine ⟨(getMessages E cfg threadID (send E (statusRequest key threadID runID) w).2).1,
            (getMessages E cfg threadID (send E (statusRequest key threadID runID) w).2).2,
            1, by omega,
            pollLoop_completed E cfg key threadID runID startTime f w resp s h1 h2 h3,
            Or.inr ?_, ?_, ?_⟩
          · simp [getMessages_log, send_log]
          · intro a ha; exact getMessages_ok E cfg threadID _ a ha
          · intro msg; exact getMessages_no_panic E cfg threadID _ msg
        · by_cases ht : (send E (statusRequest key threadID runID) w).2.now - startTime
              > 29 * second
          · refine ⟨_, _, 1, by omega,
              pollLoop_timeout E cfg key threadID runID startTime f w resp s h1 h2 h3 ht,
              Or.inl ?_, ?_, ?_⟩
            · simp [send_log]
            · intro a ha; cases ha
            · intro msg hm; cases hm
          · have hsend : w.now ≤ (send E (statusRequest key threadID runID) w).2.now := by
              rw [send_now]; omega
            have hround : (send E (statusRequest key threadID runID) w).2.now
                + 500 * millisecond
                ≤ (pollRound E (statusRequest key threadID runID) w).now := by
              simp only [pollRound, sleep_now]; omega
            have hsucc : (f + 1) * (500 * millisecond)
                = f * (500 * millisecond) + 500 * millisecond := by ring
            have hf : 0 < f := by
              rcases Nat.eq_zero_or_pos f with h0 | hpos
              · subst h0
                simp only [second, millisecond] at *
                omega
              · exact hpos
            obtain ⟨out, w', n, hn, hrun, hlog, hok, hpanic⟩ :=
              ih (pollRound E (statusRequest key threadID runID) w) hf (by
                simp only [second, millisecond] at *
                omega)
            refine ⟨out, w', n + 1, by omega, ?_, ?_, hok, hpanic⟩
            · rw [pollLoop_continue E cfg key threadID runID startTime f w resp s h1 h2 h3 ht]
              exact hrun
            · rw [pollRound_log] at hlog
              rcases hlog with hl | hl
              · left; rw [hl, List.replicate_succ]; simp
              · right; rw [hl, List.replicate_succ]; simp

/-! ## Appends, run-create and the shared tail of the pipeline -/

theorem appendMessages_cons_failed (E : Env) (cfg : Configuration) (threadID : String)
    (m : Message) (rest : List Message) (w : World) (e : String)
    (h : E.respond w.log (appendRequest cfg threadID m) = .failed e) :
    appendMessages E cfg threadID (m :: rest) w
      = (.error (.transport e), (send E (appendRequest cfg threadID m) w).2) := by
  simp only [appendMessages, send, h]

theorem appendMessages_cons_response (E : Env) (cfg : Configuration) (threadID : String)
    (m : Message) (rest : List Message) (w : World) (resp : Response)
    (h : E.respond w.log (appendRequest cfg threadID m) = .response resp) :
    appendMessages E cfg threadID (m :: rest) w
      = appendMessages E cfg threadID rest (send E (appendRequest cfg threadID m) w).2 := by
  simp only [appendMessages, send, h]

/-- Whatever the remote API answers, the append loop issues appends for a
leading part of the list, in order, and never panics. -/
theorem appendMessages_shape (E : Env) (cfg : Configuration) (threadID : String) :
    ∀ (messages : List Message) (w : World), ∃ k, k ≤ messages.length ∧
      (appendMessages E cfg threadID messages w).2.log
        = w.log ++ (messages.take k).map (appendRequest cfg threadID) ∧
      (∀ msg, (appendMessages E cfg threadID messages w).1 ≠ .panic msg) ∧
      w.now ≤ (appendMessages E cfg threadID messages w).2.now := by
  intro messages
  induction messages with
  | nil =>
    intro w
    exact ⟨0, by simp, by simp [appendMessages], by simp [appendMessages], by simp [appendMessages]⟩
  | cons m rest ih =>
    intro w
    cases h : E.respond w.log (appendRequest cfg threadID m) with
    | failed e =>
      rw [appendMessages_cons_failed E cfg threadID m rest w e h]
      refine ⟨1, by simp, by simp [send_log], by simp, ?_⟩
      simp only [send_now]; omega
    | response resp =>
      rw [appendMessages_cons_response E cfg threadID m rest w resp h]
      obtain ⟨k, hk, hlog, hp, hnow⟩ := ih (send E (appendRequest cfg threadID m) w).2
      refine ⟨k + 1, by simp [hk], ?_, hp, ?_⟩
      · rw [hlog, send_log]; simp
      · rw [send_now] at hnow; omega

theorem appendMessages_all_ok (E : Env) (cfg : Configuration) (threadID : String) :
    ∀ (messages : List Message) (w : World),
      (∀ a x b, messages = a ++ x :: b → ∃ r,
        E.respond (w.log ++ a.map (appendRequest cfg threadID)) (appendRequest cfg threadID x)
          = .response r) →
      ∃ w', appendMessages E cfg threadID messages w = (.ok (), w') ∧
        w'.log = w.log ++ messages.map (appendRequest cfg threadID) := by
  intro messages
  induction messages with
  | nil => intro w _; exact ⟨w, rfl, by simp⟩
  | cons m rest ih =>
    intro w hall
    obtain ⟨r, hr⟩ := hall [] m rest rfl
    simp only [List.map_nil, List.append_nil] at hr
    rw [appendMessages_cons_response E cfg threadID m rest w r hr]
    obtain ⟨w', hw', hlog⟩ := ih (send E (appendRequest cfg threadID m) w).2 (by
      intro a x b hab
      obtain ⟨r2, hr2⟩ := hall (m :: a) x b (by simp [hab])
      refine ⟨r2, ?_⟩
      rw [send_log]
      simpa using hr2)
    refine ⟨w', hw', ?_⟩
    rw [hlog, send_log]; simp

theorem appendMessages_fails_at (E : Env) (cfg : Configuration) (threadID : String) :
    ∀ (pre : List Message) (m : Message) (post : List Message) (e : String) (w : World),
      (∀ a x b, pre = a ++ x :: b → ∃ r,
        E.respond (w.log ++ a.map (appendRequest cfg threadID)) (appendRequest cfg threadID x)
          = .response r) →
      E.respond (w.log ++ pre.map (appendRequest cfg threadID)) (appendRequest cfg threadID m)
        = .failed e →
      ∃ w', appendMessages E cfg threadID (pre ++ m :: post) w = (.error (.transport e), w') ∧
        w'.log = w.log ++ (pre ++ [m]).map (appendRequest cfg threadID) := by
  intro pre
  induction pre with
  | nil =>
    intro m post e w _ hfail
    simp only [List.map_nil, List.append_nil] at hfail
    refine ⟨_, appendMessages_cons_failed E cfg threadID m post w e hfail, ?_⟩
    simp [send_log]
  | cons p ps ih =>
    intro m post e w hall hfail
    obtain ⟨r, hr⟩ := hall [] p ps rfl
    simp only [List.map_nil, List.append_nil] at hr
    rw [List.cons_append, appendMessages_cons_response E cfg threadID p _ w r hr]
    obtain ⟨w', hw', hlog⟩ := ih m post e (send E (appendRequest cfg threadID p) w).2 (by
      intro a x b hab
      obtain ⟨r2, hr2⟩ := hall (p :: a) x b (by simp [hab])
      refine ⟨r2, ?_⟩
      rw [send_log]
      simpa using hr2) (by
      rw [send_log]
      simpa using hfail)
    refine ⟨w', hw', ?_⟩
    rw [hlog, send_log]; simp

theorem runCreateRequest_ne_statusRequest (cfg : Configuration) (key threadID runID : String) :
    runCreateRequest cfg threadID ≠ statusRequest key threadID runID := by
  intro h
  have hm := congrArg Request.method h
  simp only [runCreateRequest, statusRequest] at hm
  exact absurd hm (by decide)

theorem runCreateRequest_ne_fetchRequest (cfg : Configuration) (threadID : String) :
    runCreateRequest cfg threadID ≠ fetchRequest cfg threadID := by
  intro h
  have hm := congrArg Request.method h
  simp only [runCreateRequest, fetchRequest] at hm
  exact absurd hm (by decide)

theorem sendAndPoll_append_failure (E : Env) (cfg : Configuration) (key threadID : String)
    (pre : List Message) (m : Message) (post : List Message) (e : String) (fuel : Nat)
    (w : World)
    (hpre : ∀ a x b, pre = a ++ x :: b → ∃ r,
      E.respond (w.log ++ a.map (appendRequest cfg threadID)) (appendRequest cfg threadID x)
        = .response r)
    (hfail : E.respond (w.log ++ pre.map (appendRequest cfg threadID))
      (appendRequest cfg threadID m) = .failed e) :
    ∃ w', sendAndPoll E cfg key threadID (pre ++ m :: post) fuel w
        = some (.error (.transport e), w') ∧
      w'.log = w.log ++ (pre ++ [m]).map (appendRequest cfg threadID) := by
  obtain ⟨w', hw', hlog⟩ := appendMessages_fails_at E cfg threadID pre m post e w hpre hfail
  exact ⟨w', by simp only [sendAndPoll, hw'], hlog⟩

theorem sendAndPoll_appends_ok (E : Env) (cfg : Configuration) (key threadID : String)
    (messages : List Message) (fuel : Nat) (w : World) (hfuel : 60 ≤ fuel)
    (hall : ∀ a x b, messages = a ++ x :: b → ∃ r,
      E.respond (w.log ++ a.map (appendRequest cfg threadID)) (appendRequest cfg threadID x)
        = .response r) :
    ∃ out w' tail, sendAndPoll E cfg key threadID messages fuel w = some (out, w') ∧
      w'.log = w.log ++ messages.map (appendRequest cfg threadID)
        ++ runCreateRequest cfg threadID :: tail ∧
      runCreateRequest cfg threadID ∉ tail ∧
      (∀ resp run,
        E.respond (w.log ++ messages.map (appendRequest cfg threadID))
            (runCreateRequest cfg threadID) = .response resp →
          resp.body.run = .ok run →
          ∃ n, 0 < n ∧
            (tail = List.replicate n (statusRequest key threadID run.ID) ∨
              tail = List.replicate n (statusRequest key threadID run.ID)
                ++ [fetchRequest cfg threadID])) ∧
      ((∀ resp run,
        E.respond (w.log ++ messages.map (appendRequest cfg threadID))
            (runCreateRequest cfg threadID) = .response resp →
          resp.body.run ≠ .ok run) → tail = [] ∧ ∀ a, out ≠ .ok a) := by
  obtain ⟨w1, hw1, hlog1⟩ := appendMessages_all_ok E cfg threadID messages w hall
  simp only [sendAndPoll, hw1, runAssistant_eq]
  rw [hlog1]
  cases hr : E.respond (w.log ++ messages.map (appendRequest cfg threadID))
      (runCreateRequest cfg threadID) with
  | failed e =>
    refine ⟨_, _, [], rfl, by rw [send_log, hlog1], by simp, ?_, ?_⟩
    · intro resp run h; cases h
    · intro _; exact ⟨rfl, fun a h => by cases h⟩
  | response resp =>
    cases hb : resp.body.run with
    | error e =>
      simp only [hb]
      refine ⟨_, _, [], rfl, by rw [send_log, hlog1], by simp, ?_, ?_⟩
      · intro resp2 run h h2
        cases h
        rw [hb] at h2; cases h2
      · intro _; exact ⟨rfl, fun a h => by cases h⟩
    | ok run =>
      simp only [hb]
      obtain ⟨out, w', n, hn, hrun, hlog, _, _⟩ :=
        pollLoop_shape E cfg key threadID run.ID
          (send E (runCreateRequest cfg threadID) w1).2.now fuel
          (send E (runCreateRequest cfg threadID) w1).2 (by omega) (by
            simp only [second, millisecond]
            omega)
      rw [send_log, hlog1] at hlog
      rcases hlog with hl | hl
      · refine ⟨out, w', List.replicate n (statusRequest key threadID run.ID), hrun,
          by rw [hl]; simp, ?_, ?_, ?_⟩
        · intro hmem
          exact runCreateRequest_ne_statusRequest cfg key threadID run.ID
            (List.eq_of_mem_replicate hmem)
        · intro resp2 run2 h h2
          cases h
          rw [hb] at h2; cases h2
          exact ⟨n, hn, Or.inl rfl⟩
        · intro hno
          exact absurd hb (hno resp run rfl)
      · refine ⟨out, w', List.replicate n (statusRequest key threadID run.ID)
            ++ [fetchRequest cfg threadID], hrun, by rw [hl]; simp, ?_, ?_, ?_⟩
        · intro hmem
          rcases List.mem_append.mp hmem with h1 | h1
          · exact runCreateRequest_ne_statusRequest cfg key threadID run.ID
              (List.eq_of_mem_replicate h1)
          · exact runCreateRequest_ne_fetchRequest cfg threadID (by simpa using h1)
        · intro resp2 run2 h h2
          cases h
          rw [hb] at h2; cases h2
          exact ⟨n, hn, Or.inr rfl⟩
        · intro hno
          exact absurd hb (hno resp run rfl)

theorem onThread_not_threadCreate (cfg : Configuration) (threadID : String) (q : Request)
    (h : onThread cfg threadID q) : ¬ isThreadCreate q := by
  have hlen : ∀ x : String,
      "https://api.openai.com/v2/threads/" ++ threadID ++ x
        ≠ "https://api.openai.com/v2/threads" := by
    intro x hx
    have hl := congrArg String.length hx
    simp only [String.length_append] at hl
    have h2 : ("https://api.openai.com/v2/threads/").length = 34 := by decide
    have h3 : ("https://api.openai.com/v2/threads").length = 33 := by decide
    omega
  rintro ⟨_, hu⟩
  rcases h with ⟨m, rfl⟩ | rfl | ⟨key, runID, rfl⟩ | rfl
  · exact hlen _ hu
  · exact hlen _ hu
  · simp only [statusRequest, String.append_assoc] at hu
    exact hlen _ (by simpa only [String.append_assoc] using hu)
  · exact hlen _ hu

theorem sendAndPoll_shape (E : Env) (cfg : Configuration) (key threadID : String)
    (messages : List Message) (fuel : Nat) (w : World) (hfuel : 60 ≤ fuel) :
    ∃ out w' new, sendAndPoll E cfg key threadID messages fuel w = some (out, w') ∧
      w'.log = w.log ++ new ∧ (∀ q ∈ new, onThread cfg threadID q) ∧
      (∀ a, out = .ok a → a.ThreadID = threadID) ∧ (∀ msg, out ≠ .panic msg) := by
  obtain ⟨k, _, hlog, hnp, _⟩ := appendMessages_shape E cfg threadID messages w
  have happ : ∀ q ∈ (messages.take k).map (appendRequest cfg threadID),
      onThread cfg threadID q := by
    intro q hq
    obtain ⟨m, _, rfl⟩ := List.mem_map.mp hq
    exact Or.inl ⟨m, rfl⟩
  rcases hres : appendMessages E cfg threadID messages w with ⟨r, w1⟩
  rw [hres] at hlog hnp
  simp only at hlog hnp
  cases r with
  | panic msg => exact absurd rfl (hnp msg)
  | error e =>
    refine ⟨.error e, w1, _, by simp only [sendAndPoll, hres], hlog, happ, ?_, ?_⟩
    · intro a h; cases h
    · intro msg h; cases h
  | ok u =>
    simp only [sendAndPoll, hres, runAssistant_eq]
    cases hr : E.respond w1.log (runCreateRequest cfg threadID) with
    | failed e =>
      refine ⟨_, _, (messages.take k).map (appendRequest cfg threadID)
        ++ [runCreateRequest cfg threadID], rfl, by rw [send_log, hlog]; simp, ?_, ?_, ?_⟩
      · intro q hq
        rcases List.mem_append.mp hq with h1 | h1
        · exact happ q h1
        · exact Or.inr (Or.inl (by simpa using h1))
      · intro a h; cases h
      · intro msg h; cases h
    | response resp =>
      cases hb : resp.body.run with
      | error e =>
        simp only [hb]
        refine ⟨_, _, (messages.take k).map (appendRequest cfg threadID)
          ++ [runCreateRequest cfg threadID], rfl, by rw [send_log, hlog]; simp, ?_, ?_, ?_⟩
        · intro q hq
          rcases List.mem_append.mp hq with h1 | h1
          · exact happ q h1
          · exact Or.inr (Or.inl (by simpa using h1))
        · intro a h; cases h
        · intro msg h; cases h
      | ok run =>
        simp only [hb]
        obtain ⟨out, w', n, _, hrun, hlog2, hok, hpanic⟩ :=
          pollLoop_shape E cfg key threadID run.ID
            (send E (runCreateRequest cfg threadID) w1).2.now fuel
            (send E (runCreateRequest cfg threadID) w1).2 (by omega) (by
              simp only [second, millisecond]
              omega)
        rw [send_log, hlog] at hlog2
        have hst : ∀ q ∈ List.replicate n (statusRequest key threadID run.ID),
            onThread cfg threadID q := by
          intro q hq
          rw [List.eq_of_mem_replicate hq]
          exact Or.inr (Or.inr (Or.inl ⟨key, run.ID, rfl⟩))
        rcases hlog2 with hl | hl
        · refine ⟨out, w', (messages.take k).map (appendRequest cfg threadID)
            ++ [runCreateRequest cfg threadID]
            ++ List.replicate n (statusRequest key threadID run.ID), hrun,
            by rw [hl]; simp, ?_, fun a h => (hok a h).1, hpanic⟩
          intro q hq
          rcases List.mem_append.mp hq with h1 | h1
          · rcases List.mem_append.mp h1 with h2 | h2
            · exact happ q h2
            · exact Or.inr (Or.inl (by simpa using h2))
          · exact hst q h1
        · refine ⟨out, w', (messages.take k).map (appendRequest cfg threadID)
            ++ [runCreateRequest cfg threadID]
            ++ List.replicate n (statusRequest key threadID run.ID)
            ++ [fetchRequest cfg threadID], hrun,
            by rw [hl]; simp, ?_, fun a h => (hok a h).1, hpanic⟩
          intro q hq
          rcases List.mem_append.mp hq with h0 | h0
          · rcases List.mem_append.mp h0 with h1 | h1
            · rcases List.mem_append.mp h1 with h2 | h2
              · exact happ q h2
              · exact Or.inr (Or.inl (by simpa using h2))
            · exact hst q h1
          · exact Or.inr (Or.inr (Or.inr (by simpa using h0)))

theorem sendMessageToAssistant_eq (E : Env) (cfg : Configuration) (threadID : String)
    (messages : List Message) (fuel : Nat) (w : World) :
    OpenaiAssistant.sendMessageToAssistant E cfg threadID messages fuel w
      = sendAndPoll E cfg cfg.OpenAIAPIKey threadID messages fuel w := rfl

theorem pipeline_eq (E : Env) (cfg : Configuration) (first : Message) (rest : List Message)
    (fuel : Nat) (w : World) :
    OpenaiAssistant.pipeline E cfg (first :: rest) fuel w
      = if first.ThreadID = "0" then
          match createThread E cfg w with
          | (.ok t, w1) => sendAndPoll E cfg cfg.OpenAIAPIKey t.ID (first :: rest) fuel w1
          | (.error e, w1) => some (.error e, w1)
          | (.panic m, w1) => some (.panic m, w1)
        else sendAndPoll E cfg cfg.OpenAIAPIKey first.ThreadID (first :: rest) fuel w := by
  by_cases h0 : first.ThreadID = "0"
  · simp only [OpenaiAssistant.pipeline, OpenaiAssistant.getOrCreateThreadID, h0, if_true]
    rcases createThread E cfg w with ⟨r, w1⟩
    cases r <;> rfl
  · simp only [OpenaiAssistant.pipeline, OpenaiAssistant.getOrCreateThreadID, h0, if_false]
    rfl

theorem callOpenAIAssistant_eq (E : Env) (cfg : Configuration) (first : Message)
    (rest : List Message) (fuel : Nat) (w : World) :
    AssistantHandler.callOpenAIAssistant E cfg (first :: rest) fuel w
      = if first.ThreadID = "0" then
          match createThread E cfg w with
          | (.ok t, w1) =>
            sendAndPoll E cfg cfg.OpenAIAssistantAPIKey t.ID (first :: rest) fuel w1
          | (.error e, w1) => some (.error e, w1)
          | (.panic m, w1) => some (.panic m, w1)
        else
          sendAndPoll E cfg cfg.OpenAIAssistantAPIKey first.ThreadID (first :: rest) fuel w := by
  by_cases h0 : first.ThreadID = "0"
  · simp only [AssistantHandler.callOpenAIAssistant, h0, if_true]
    rcases createThread E cfg w with ⟨r, w1⟩
    cases r <;> rfl
  · simp only [AssistantHandler.callOpenAIAssistant, h0, if_false]
    rfl

/-- Thread resolution followed by the shared tail, for either bearer key. -/
theorem resolved_thread_used (E : Env) (cfg : Configuration) (key : String) (first : Message)
    (rest : List Message) (fuel : Nat) (w : World)
    (result : Option (Result AssistantResponse × World))
    (hres : result
      = if first.ThreadID = "0" then
          match createThread E cfg w with
          | (.ok t, w1) => sendAndPoll E cfg key t.ID (first :: rest) fuel w1
          | (.error e, w1) => some (.error e, w1)
          | (.panic m, w1) => some (.panic m, w1)
        else sendAndPoll E cfg key first.ThreadID (first :: rest) fuel w)
    (hfuel : 60 ≤ fuel) :
    ∃ out w', result = some (out, w') ∧
      (first.ThreadID = "0" →
        ∃ later, w'.log = w.log ++ threadCreateRequest cfg :: later ∧
          (∀ q ∈ later, ¬ isThreadCreate q) ∧
          (∀ resp t, E.respond w.log (threadCreateRequest cfg) = .response resp →
            resp.body.thread = .ok t →
            (∀ q ∈ later, onThread cfg t.ID q) ∧ ∀ a, out = .ok a → a.ThreadID = t.ID) ∧
          ((∀ resp t, E.respond w.log (threadCreateRequest cfg) = .response resp →
            resp.body.thread ≠ .ok t) → later = [] ∧ ∀ a, out ≠ .ok a)) ∧
      (first.ThreadID ≠ "0" →
        ∃ later, w'.log = w.log ++ later ∧
          (∀ q ∈ later, ¬ isThreadCreate q ∧ onThread cfg first.ThreadID q) ∧
          ∀ a, out = .ok a → a.ThreadID = first.ThreadID) := by
  by_cases h0 : first.ThreadID = "0"
  · rw [if_pos h0, createThread_eq] at hres
    cases hr : E.respond w.log (threadCreateRequest cfg) with
    | failed e =>
      rw [hr] at hres
      refine ⟨_, _, hres, fun _ => ⟨[], by simp [send_log], by simp, ?_, ?_⟩,
        fun h => absurd h0 h⟩
      · intro resp t h; cases h
      · intro _; exact ⟨rfl, fun a h => by cases h⟩
    | response resp =>
      rw [hr] at hres
      cases hb : resp.body.thread with
      | error e =>
        simp only [hb] at hres
        refine ⟨_, _, hres, fun _ => ⟨[], by simp [send_log], by simp, ?_, ?_⟩,
          fun h => absurd h0 h⟩
        · intro resp2 t h h2
          cases h
          rw [hb] at h2; cases h2
        · intro _; exact ⟨rfl, fun a h => by cases h⟩
      | ok t =>
        simp only [hb] at hres
        obtain ⟨out, w', new, hrun, hlog, hon, hok, _⟩ :=
          sendAndPoll_shape E cfg key t.ID (first :: rest) fuel
            (send E (threadCreateRequest cfg) w).2 hfuel
        rw [hrun] at hres
        refine ⟨out, w', hres, fun _ => ⟨new, by rw [hlog, send_log]; simp, ?_, ?_, ?_⟩,
          fun h => absurd h0 h⟩
        · intro q hq
          exact onThread_not_threadCreate cfg t.ID q (hon q hq)
        · intro resp2 t2 h h2
          cases h
          rw [hb] at h2; cases h2
          exact ⟨hon, hok⟩
        · intro hno
          exact absurd hb (hno resp t rfl)
  · rw [if_neg h0] at hres
    obtain ⟨out, w', new, hrun, hlog, hon, hok, _⟩ :=
      sendAndPoll_shape E cfg key first.ThreadID (first :: rest) fuel w hfuel
    rw [hrun] at hres
    exact ⟨out, w', hres, fun h => absurd h h0, fun _ => ⟨new, hlog,
      fun q hq => ⟨onThread_not_threadCreate cfg _ q (hon q hq), hon q hq⟩, hok⟩⟩

/-! ## Reply extraction -/

/-- C5 (the code at the failing input): the message fetch is answered with
`itemsBody`, one assistant message whose content is an array holding the text
item `hello!`. Decoding into the declared `MessagesResponse` fails, so
`getMessages` returns the decoder's error and no response, whatever the two
field reads of the scan are; the end-to-end scenario served this list ends in
the same error. -/
theorem getMessages_rejects_content_items :
    (∀ (contentType contentTextValue : Char → String),
      (getMessages
          { Sample.itemsFirst with
            contentType := contentType, contentTextValue := contentTextValue }
          Sample.cfg "t1" Sample.w0).1
        = .error (.unmarshal
            "json: cannot unmarshal array into Go struct field Message.data.content of type string")) ∧
      (∀ a, (getMessages Sample.itemsFirst Sample.cfg "t1" Sample.w0).1 ≠ .ok a) ∧
      (OpenaiAssistant.pipeline Sample.happyItems Sample.cfg [Sample.hi] 60 Sample.w0).map
          (fun r => r.1)
        = some (.error (.unmarshal
            "json: cannot unmarshal array into Go struct field Message.data.content of type string")) := by
  refine ⟨fun _ _ => rfl, ?_, by decide⟩
  intro a h
  have h2 : (getMessages Sample.itemsFirst Sample.cfg "t1" Sample.w0).1
      = .error (.unmarshal
        "json: cannot unmarshal array into Go struct field Message.data.content of type string") :=
    rfl
  rw [h2] at h
  cases h

/-- C3: if the first `k` status polls answer a status other than `completed`
without the 29 s budget being exceeded and poll `k + 1` answers `completed`, then
either copy of `pollForCompletion` issues exactly `k + 1` status polls and
returns the result of `getMessages` on the same thread, called right after that
poll; nothing is assumed about the clock at poll `k + 1`. `key` is the bearer key
of the copy considered. -/
theorem pollForCompletion_first_completed (E : Env) (cfg : Configuration)
    (key threadID runID : String) (k fuel : Nat) (w : World) (hfuel : k < fuel)
    (hearly : ∀ i, i < k → ∃ resp s,
      (send E (statusRequest key threadID runID)
          (afterRounds E (statusRequest key threadID runID) i w)).1 = .response resp ∧
        resp.body.runStatus = .ok s ∧ s.Status ≠ "completed" ∧
        (send E (statusRequest key threadID runID)
          (afterRounds E (statusRequest key threadID runID) i w)).2.now - w.now
            ≤ 29 * second)
    (hdone : ∃ resp s,
      (send E (statusRequest key threadID runID)
          (afterRounds E (statusRequest key threadID runID) k w)).1 = .response resp ∧
        resp.body.runStatus = .ok s ∧ s.Status = "completed") :
    (key = cfg.OpenAIAPIKey →
      OpenaiAssistant.pollForCompletion E cfg threadID runID fuel w
        = some (getMessages E cfg threadID
            (send E (statusRequest key threadID runID)
              (afterRounds E (statusRequest key threadID runID) k w)).2)) ∧
    (key = cfg.OpenAIAssistantAPIKey →
      AssistantHandler.pollForCompletion E cfg threadID runID fuel w
        = some (getMessages E cfg threadID
            (send E (statusRequest key threadID runID)
              (afterRounds E (statusRequest key threadID runID) k w)).2)) ∧
    (send E (statusRequest key threadID runID)
        (afterRounds E (statusRequest key threadID runID) k w)).2.log
      = w.log ++ List.replicate (k + 1) (statusRequest key threadID runID) ∧
    (getMessages E cfg threadID
        (send E (statusRequest key threadID runID)
          (afterRounds E (statusRequest key threadID runID) k w)).2).2.log
      = w.log ++ List.replicate (k + 1) (statusRequest key threadID runID)
          ++ [fetchRequest cfg threadID] ∧
    fetchRequest cfg threadID ≠ statusRequest key threadID runID := by
  have hmain := pollLoop_first_completed E cfg key threadID runID w.now k fuel w hfuel
    hearly hdone
  have hlog : (send E (statusRequest key threadID runID)
        (afterRounds E (statusRequest key threadID runID) k w)).2.log
      = w.log ++ List.replicate (k + 1) (statusRequest key threadID runID) := by
    rw [send_log, afterRounds_log, List.replicate_succ', List.append_assoc]
  refine ⟨?_, ?_, hlog, ?_, statusRequest_ne_fetchRequest cfg key threadID runID⟩
  · intro hk
    rw [OpenaiAssistant.pollForCompletion, ← hk]
    exact hmain
  · intro hk
    rw [AssistantHandler.pollForCompletion, ← hk]
    exact hmain
  · rw [getMessages_log, hlog]

/-- C4: if every status poll answers a status other than `completed`, either
copy of `pollForCompletion`, given fuel for 60 rounds, fails with the timeout
error at poll `n + 1 ≤ 60`, the first after which more than 29 s have passed
since the loop began; its requests are `n + 1` status polls and no message
fetch. The clock advances by at least 500 ms per round because `sleep` does. -/
theorem pollForCompletion_timeout (E : Env) (cfg : Configuration)
    (key threadID runID : String) (fuel : Nat) (w : World) (hfuel : 60 ≤ fuel)
    (hall : ∀ log, ∃ resp s,
      E.respond log (statusRequest key threadID runID) = .response resp ∧
        resp.body.runStatus = .ok s ∧ s.Status ≠ "completed") :
    ∃ n, n < 60 ∧
      (key = cfg.OpenAIAPIKey →
        OpenaiAssistant.pollForCompletion E cfg threadID runID fuel w
          = some (.error (.errorsNew "timeout waiting for the run to complete"),
              (send E (statusRequest key threadID runID)
                (afterRounds E (statusRequest key threadID runID) n w)).2)) ∧
      (key = cfg.OpenAIAssistantAPIKey →
        AssistantHandler.pollForCompletion E cfg threadID runID fuel w
          = some (.error (.errorsNew "timeout waiting for the run to complete"),
              (send E (statusRequest key threadID runID)
                (afterRounds E (statusRequest key threadID runID) n w)).2)) ∧
      (send E (statusRequest key threadID runID)
          (afterRounds E (statusRequest key threadID runID) n w)).2.now - w.now
        > 29 * second ∧
      (∀ i, i < n →
        (send E (statusRequest key threadID runID)
          (afterRounds E (statusRequest key threadID runID) i w)).2.now - w.now
            ≤ 29 * second) ∧
      (send E (statusRequest key threadID runID)
          (afterRounds E (statusRequest key threadID runID) n w)).2.log
        = w.log ++ List.replicate (n + 1) (statusRequest key threadID runID) ∧
      fetchRequest cfg threadID ∉ List.replicate (n + 1) (statusRequest key threadID runID) := by
  obtain ⟨n, _, hrun, hover, hunder⟩ :=
    pollLoop_stalled E cfg key threadID runID w.now hall fuel w (by omega) (by
      simp only [second, millisecond]
      omega)
  have hn : n < 60 := by
    by_contra hge
    have h1 := hunder (n - 1) (by omega)
    have h2 := afterRounds_now E (statusRequest key threadID runID) (n - 1) w
    rw [send_now] at h1
    have h3 : 59 * (500 * millisecond) ≤ (n - 1) * (500 * millisecond) :=
      Nat.mul_le_mul_right _ (by omega)
    simp only [second, millisecond] at *
    omega
  refine ⟨n, hn, ?_, ?_, hover, hunder, ?_, ?_⟩
  · intro hk
    rw [OpenaiAssistant.pollForCompletion, ← hk]
    exact hrun
  · intro hk
    rw [AssistantHandler.pollForCompletion, ← hk]
    exact hrun
  · rw [send_log, afterRounds_log, List.replicate_succ', List.append_assoc]
  · intro hmem
    exact statusRequest_ne_fetchRequest cfg key threadID runID (List.eq_of_mem_replicate hmem)

/-- Witness for C3: with round trips of 20 s the second poll is answered
`completed` 40.5 s after the loop began, and the reply is still fetched. -/
theorem pollForCompletion_first_completed_witness :
    1 < 2 ∧
      OpenaiAssistant.pollForCompletion Sample.slow Sample.cfg "t1" "r1" 2 Sample.w0
        = some (getMessages Sample.slow Sample.cfg "t1"
            (send Sample.slow (statusRequest "k1" "t1" "r1")
              (afterRounds Sample.slow (statusRequest "k1" "t1" "r1") 1 Sample.w0)).2) ∧
      (send Sample.slow (statusRequest "k1" "t1" "r1")
          (afterRounds Sample.slow (statusRequest "k1" "t1" "r1") 1 Sample.w0)).2.now
        = 40500000000 ∧
      (OpenaiAssistant.pollForCompletion Sample.slow Sample.cfg "t1" "r1" 2 Sample.w0).map
          (fun r => r.1)
        = some (.ok { Status := "success", ThreadID := "t1", Message := "hello!" }) :=
  ⟨by decide,
    (pollForCompletion_first_completed Sample.slow Sample.cfg "k1" "t1" "r1" 1 2 Sample.w0
      (by decide)
      (by
        intro i hi
        obtain rfl : i = 0 := by omega
        exact ⟨⟨200, Sample.statusBody "in_progress"⟩, ⟨"in_progress"⟩, rfl, rfl, by decide,
          by decide⟩)
      ⟨⟨200, Sample.statusBody "completed"⟩, ⟨"completed"⟩, rfl, rfl, rfl⟩).1 rfl,
    by decide, by decide⟩

/-- Witness for C4: against a remote API that always answers `in_progress`, with
round trips of 1 ms, the loop times out within 60 polls. -/
theorem pollForCompletion_timeout_witness :
    60 ≤ 60 ∧
      ∃ n, n < 60 ∧
        OpenaiAssistant.pollForCompletion (Sample.stalled 1000000) Sample.cfg "t1" "r1" 60
            Sample.w0
          = some (.error (.errorsNew "timeout waiting for the run to complete"),
              (send (Sample.stalled 1000000) (statusRequest "k1" "t1" "r1")
                (afterRounds (Sample.stalled 1000000) (statusRequest "k1" "t1" "r1") n
                  Sample.w0)).2) := by
  refine ⟨by decide, ?_⟩
  obtain ⟨n, hn, h1, _⟩ :=
    pollForCompletion_timeout (Sample.stalled 1000000) Sample.cfg "k1" "t1" "r1" 60 Sample.w0
      (by decide)
      (fun _ => ⟨⟨200, Sample.statusBody "in_progress"⟩, ⟨"in_progress"⟩, rfl, rfl, by decide⟩)
  exact ⟨n, hn, h1 rfl⟩

/-- C1: for a non-empty message list and fuel for 60 poll rounds, each of the
two pipelines (`getOrCreateThreadID` then `sendMessageToAssistant`, and
`callOpenAIAssistant`) returns. If the first message's thread ID is `"0"`, its
first request is the one thread-create call, no later request is a thread-create
call, every later request is an append, run-create, status poll or message fetch
on the ID that call returned, and a returned response carries that ID (if the
call returned no ID nothing follows and no response is returned). Otherwise no
thread-create call is issued and the first message's thread ID is used in all
those places, whatever the later messages say. -/
theorem thread_resolved_once (E : Env) (cfg : Configuration) (first : Message)
    (rest : List Message) (fuel : Nat) (w : World)
    (run : Env → Configuration → List Message → Nat → World →
      Option (Result AssistantResponse × World))
    (hrun : run = OpenaiAssistant.pipeline ∨ run = AssistantHandler.callOpenAIAssistant)
    (hfuel : 60 ≤ fuel) :
    ∃ out w', run E cfg (first :: rest) fuel w = some (out, w') ∧
      (first.ThreadID = "0" →
        ∃ later, w'.log = w.log ++ threadCreateRequest cfg :: later ∧
          (∀ q ∈ later, ¬ isThreadCreate q) ∧
          (∀ resp t, E.respond w.log (threadCreateRequest cfg) = .response resp →
            resp.body.thread = .ok t →
            (∀ q ∈ later, onThread cfg t.ID q) ∧ ∀ a, out = .ok a → a.ThreadID = t.ID) ∧
          ((∀ resp t, E.respond w.log (threadCreateRequest cfg) = .response resp →
            resp.body.thread ≠ .ok t) → later = [] ∧ ∀ a, out ≠ .ok a)) ∧
      (first.ThreadID ≠ "0" →
        ∃ later, w'.log = w.log ++ later ∧
          (∀ q ∈ later, ¬ isThreadCreate q ∧ onThread cfg first.ThreadID q) ∧
          ∀ a, out = .ok a → a.ThreadID = first.ThreadID) := by
  rcases hrun with rfl | rfl
  · exact resolved_thread_used E cfg cfg.OpenAIAPIKey first rest fuel w _
      (pipeline_eq E cfg first rest fuel w) hfuel
  · exact resolved_thread_used E cfg cfg.OpenAIAssistantAPIKey first rest fuel w _
      (callOpenAIAssistant_eq E cfg first rest fuel w) hfuel

/-- Witness for C1: the end-to-end scenario; the created thread is `t1`. -/
theorem thread_resolved_once_witness :
    60 ≤ 60 ∧
      ∃ out w', OpenaiAssistant.pipeline Sample.happy Sample.cfg [Sample.hi] 60 Sample.w0
          = some (out, w') ∧
        ∃ later, w'.log = Sample.w0.log ++ threadCreateRequest Sample.cfg :: later ∧
          (∀ q ∈ later, ¬ isThreadCreate q) ∧
          (∀ q ∈ later, onThread Sample.cfg "t1" q) ∧
          ∀ a, out = .ok a → a.ThreadID = "t1" := by
  refine ⟨by decide, ?_⟩
  obtain ⟨out, w', h, h1, _⟩ :=
    thread_resolved_once Sample.happy Sample.cfg Sample.hi [] 60 Sample.w0
      OpenaiAssistant.pipeline (Or.inl rfl) (by decide)
  obtain ⟨later, hl, hnc, hid, _⟩ := h1 rfl
  have h2 := hid ⟨200, Sample.idBody "t1"⟩ ⟨"t1"⟩ rfl rfl
  exact ⟨out, w', h, later, hl, hnc, h2.1, h2.2⟩

/-- C2: `sendMessageToAssistant` (and the same lines of `callOpenAIAssistant` on
a list whose first thread ID is the non-`"0"` ID used) issues the appends in
input order, the `i`-th carrying the `i`-th message. If the append of `m`, after
the messages `pre`, is the first to fail, the requests issued are exactly the
appends of `pre` and `m`, and the result is that error. If no append fails, the
appends of all messages are followed by one run-create call and, when that call
returns a run ID, by `n ≥ 1` status polls of that run ID and at most the message
fetch. `key` is the bearer key of the copy considered. -/
theorem appends_in_order_then_one_run (E : Env) (cfg : Configuration) (key threadID : String)
    (messages : List Message) (fuel : Nat) (w : World)
    (result : Option (Result AssistantResponse × World))
    (hrun : (key = cfg.OpenAIAPIKey ∧
        result = OpenaiAssistant.sendMessageToAssistant E cfg threadID messages fuel w) ∨
      (key = cfg.OpenAIAssistantAPIKey ∧ threadID ≠ "0" ∧
        (∃ first rest, messages = first :: rest ∧ first.ThreadID = threadID) ∧
        result = AssistantHandler.callOpenAIAssistant E cfg messages fuel w)) :
    (∀ pre m post e, messages = pre ++ m :: post →
      (∀ a x b, pre = a ++ x :: b → ∃ r,
        E.respond (w.log ++ a.map (appendRequest cfg threadID)) (appendRequest cfg threadID x)
          = .response r) →
      E.respond (w.log ++ pre.map (appendRequest cfg threadID)) (appendRequest cfg threadID m)
        = .failed e →
      ∃ w', result = some (.error (.transport e), w') ∧
        w'.log = w.log ++ (pre ++ [m]).map (appendRequest cfg threadID)) ∧
    ((∀ a x b, messages = a ++ x :: b → ∃ r,
        E.respond (w.log ++ a.map (appendRequest cfg threadID)) (appendRequest cfg threadID x)
          = .response r) →
      60 ≤ fuel →
      ∃ out w' tail, result = some (out, w') ∧
        w'.log = w.log ++ messages.map (appendRequest cfg threadID)
          ++ runCreateRequest cfg threadID :: tail ∧
        runCreateRequest cfg threadID ∉ tail ∧
        (∀ resp run,
          E.respond (w.log ++ messages.map (appendRequest cfg threadID))
              (runCreateRequest cfg threadID) = .response resp →
            resp.body.run = .ok run →
            ∃ n, 0 < n ∧
              (tail = List.replicate n (statusRequest key threadID run.ID) ∨
                tail = List.replicate n (statusRequest key threadID run.ID)
                  ++ [fetchRequest cfg threadID])) ∧
        ((∀ resp run,
          E.respond (w.log ++ messages.map (appendRequest cfg threadID))
              (runCreateRequest cfg threadID) = .response resp →
            resp.body.run ≠ .ok run) → tail = [] ∧ ∀ a, out ≠ .ok a)) := by
  have hres : result = sendAndPoll E cfg key threadID messages fuel w := by
    rcases hrun with ⟨hk, hr⟩ | ⟨hk, hne, ⟨first, rest, hm, hf⟩, hr⟩
    · rw [hr, hk]; rfl
    · rw [hr, hm, callOpenAIAssistant_eq, hf, if_neg hne, hk]
  subst hres
  refine ⟨?_, ?_⟩
  · intro pre m post e hm hpre hfail
    rw [hm]
    exact sendAndPoll_append_failure E cfg key threadID pre m post e fuel w hpre hfail
  · intro hall hfuel
    exact sendAndPoll_appends_ok E cfg key threadID messages fuel w hfuel hall

/-- Witness for C2: of three messages the second append loses its connection;
two appends are logged, in order, and nothing else. When all three appends are
accepted, one run-create call follows them and the run `r1` it returns is
polled. -/
theorem appends_in_order_then_one_run_witness :
    (∃ w', OpenaiAssistant.sendMessageToAssistant Sample.dropsSecond Sample.cfg "t9"
          Sample.three 60 Sample.w0
        = some (.error (.transport "connection reset"), w') ∧
      w'.log = Sample.w0.log ++
        [appendRequest Sample.cfg "t9" { Role := "user", Content := "one", ThreadID := "t9" },
         appendRequest Sample.cfg "t9" { Role := "user", Content := "two", ThreadID := "t9" }]) ∧
    (∃ out w' tail, OpenaiAssistant.sendMessageToAssistant Sample.existing Sample.cfg "t9"
          Sample.three 60 Sample.w0 = some (out, w') ∧
      w'.log = Sample.w0.log ++ Sample.three.map (appendRequest Sample.cfg "t9")
        ++ runCreateRequest Sample.cfg "t9" :: tail ∧
      runCreateRequest Sample.cfg "t9" ∉ tail ∧
      ∃ n, 0 < n ∧
        (tail = List.replicate n (statusRequest "k1" "t9" "r1") ∨
          tail = List.replicate n (statusRequest "k1" "t9" "r1")
            ++ [fetchRequest Sample.cfg "t9"])) := by
  constructor
  · exact (appends_in_order_then_one_run Sample.dropsSecond Sample.cfg "k1" "t9" Sample.three
        60 Sample.w0 _ (Or.inl ⟨rfl, rfl⟩)).1
      [{ Role := "user", Content := "one", ThreadID := "t9" }]
      { Role := "user", Content := "two", ThreadID := "t9" }
      [{ Role := "user", Content := "three", ThreadID := "t9" }] "connection reset" rfl
      (by
        intro a x b h
        cases a with
        | nil => exact ⟨⟨200, Sample.idBody "m1"⟩, rfl⟩
        | cons y ys =>
          exfalso
          have hl := congrArg List.length h
          simp at hl)
      rfl
  · obtain ⟨out, w', tail, h1, h2, h3, h4, _⟩ :=
      (appends_in_order_then_one_run Sample.existing Sample.cfg "k1" "t9" Sample.three
        60 Sample.w0 _ (Or.inl ⟨rfl, rfl⟩)).2
        (by
          intro a x b h
          rcases a with _ | ⟨a1, _ | ⟨a2, _ | ⟨a3, a4⟩⟩⟩
          · exact ⟨_, rfl⟩
          · exact ⟨_, rfl⟩
          · exact ⟨_, rfl⟩
          · exfalso
            have hl := congrArg List.length h
            simp [Sample.three] at hl)
        (by decide)
    exact ⟨out, w', tail, h1, h2, h3, h4 ⟨200, Sample.idBody "r1"⟩ ⟨"r1"⟩ rfl rfl⟩

/-- C6 (amended): every remote call fails with the transport error when the
round trip itself fails; thread create, run create, status poll (both copies) and
message fetch fail with the decoder's error when the body does not decode, and
otherwise go on with the decoded value, whatever the HTTP status code is, since
only the body of the response is read; an append whose round trip gave a
response, of any status and body, does not fail. -/
theorem remote_call_failures (E : Env) (cfg : Configuration) (threadID runID : String)
    (fuel : Nat) (w : World) :
    ((∀ e, E.respond w.log (threadCreateRequest cfg) = .failed e →
        (createThread E cfg w).1 = .error (.transport e)) ∧
      (∀ resp e, E.respond w.log (threadCreateRequest cfg) = .response resp →
        resp.body.thread = .error e → (createThread E cfg w).1 = .error (.unmarshal e)) ∧
      (∀ resp t, E.respond w.log (threadCreateRequest cfg) = .response resp →
        resp.body.thread = .ok t → (createThread E cfg w).1 = .ok t)) ∧
    ((∀ e, E.respond w.log (runCreateRequest cfg threadID) = .failed e →
        (runAssistant E cfg threadID w).1 = .error (.transport e)) ∧
      (∀ resp e, E.respond w.log (runCreateRequest cfg threadID) = .response resp →
        resp.body.run = .error e →
        (runAssistant E cfg threadID w).1 = .error (.unmarshal e)) ∧
      (∀ resp r, E.respond w.log (runCreateRequest cfg threadID) = .response resp →
        resp.body.run = .ok r → (runAssistant E cfg threadID w).1 = .ok r)) ∧
    ((∀ e, E.respond w.log (statusRequest cfg.OpenAIAPIKey threadID runID) = .failed e →
        (OpenaiAssistant.pollForCompletion E cfg threadID runID (fuel + 1) w).map (fun r => r.1)
          = some (.error (.transport e))) ∧
      (∀ resp e,
        E.respond w.log (statusRequest cfg.OpenAIAPIKey threadID runID) = .response resp →
        resp.body.runStatus = .error e →
        (OpenaiAssistant.pollForCompletion E cfg threadID runID (fuel + 1) w).map (fun r => r.1)
          = some (.error (.unmarshal e)))) ∧
    ((∀ e,
        E.respond w.log (statusRequest cfg.OpenAIAssistantAPIKey threadID runID) = .failed e →
        (AssistantHandler.pollForCompletion E cfg threadID runID (fuel + 1) w).map
            (fun r => r.1)
          = some (.error (.transport e))) ∧
      (∀ resp e,
        E.respond w.log (statusRequest cfg.OpenAIAssistantAPIKey threadID runID)
          = .response resp →
        resp.body.runStatus = .error e →
        (AssistantHandler.pollForCompletion E cfg threadID runID (fuel + 1) w).map
            (fun r => r.1)
          = some (.error (.unmarshal e)))) ∧
    ((∀ e, E.respond w.log (fetchRequest cfg threadID) = .failed e →
        (getMessages E cfg threadID w).1 = .error (.transport e)) ∧
      (∀ resp e, E.respond w.log (fetchRequest cfg threadID) = .response resp →
        resp.body.messages = .error e →
        (getMessages E cfg threadID w).1 = .error (.unmarshal e))) ∧
    ((∀ m rest e, E.respond w.log (appendRequest cfg threadID m) = .failed e →
        (appendMessages E cfg threadID (m :: rest) w).1 = .error (.transport e)) ∧
      (∀ m rest resp, E.respond w.log (appendRequest cfg threadID m) = .response resp →
        appendMessages E cfg threadID (m :: rest) w
          = appendMessages E cfg threadID rest (send E (appendRequest cfg threadID m) w).2)) := by
  refine ⟨⟨?_, ?_, ?_⟩, ⟨?_, ?_, ?_⟩, ⟨?_, ?_⟩, ⟨?_, ?_⟩, ⟨?_, ?_⟩, ⟨?_, ?_⟩⟩
  · intro e h; rw [createThread_eq, h]
  · intro resp e h hb; rw [createThread_eq, h]; simp only [hb]
  · intro resp t h hb; rw [createThread_eq, h]; simp only [hb]
  · intro e h; rw [runAssistant_eq, h]
  · intro resp e h hb; rw [runAssistant_eq, h]; simp only [hb]
  · intro resp r h hb; rw [runAssistant_eq, h]; simp only [hb]
  · intro e h
    rw [OpenaiAssistant.pollForCompletion, pollLoop_failed E cfg _ threadID runID _ fuel w e h]
    rfl
  · intro resp e h hb
    rw [OpenaiAssistant.pollForCompletion,
      pollLoop_undecodable E cfg _ threadID runID _ fuel w resp e h hb]
    rfl
  · intro e h
    rw [AssistantHandler.pollForCompletion, pollLoop_failed E cfg _ threadID runID _ fuel w e h]
    rfl
  · intro resp e h hb
    rw [AssistantHandler.pollForCompletion,
      pollLoop_undecodable E cfg _ threadID runID _ fuel w resp e h hb]
    rfl
  · intro e h; rw [getMessages_eq, h]
  · intro resp e h hb; rw [getMessages_eq, h]; simp only [hb]
  · intro m rest e h; rw [appendMessages_cons_failed E cfg threadID m rest w e h]
  · intro m rest resp h; exact appendMessages_cons_response E cfg threadID m rest w resp h

/-- Witness for C6 (amended): thread creation against a remote API that refuses
the connection, and against one that answers 200 with a body that is not JSON. -/
theorem remote_call_failures_witness :
    (createThread Sample.down Sample.cfg Sample.w0).1
        = .error (.transport "connection refused") ∧
      (createThread Sample.garbled Sample.cfg Sample.w0).1
        = .error (.unmarshal "invalid character") :=
  ⟨(remote_call_failures Sample.down Sample.cfg "t1" "r1" 0 Sample.w0).1.1
      "connection refused" rfl,
    (remote_call_failures Sample.garbled Sample.cfg "t1" "r1" 0 Sample.w0).1.2.1
      ⟨200, Sample.badBody⟩ "invalid character" rfl rfl⟩

/-- C6 (counterexample): thread creation answered with HTTP 500 and the body
`{"id": "t1"}` does not fail: `createThread` returns the thread ID `t1`. An
append answered with a body that is not JSON does not fail either. -/
theorem createThread_ignores_status_code :
    (∃ body, Sample.serverError.respond Sample.w0.log (threadCreateRequest Sample.cfg)
        = .response ⟨500, body⟩) ∧
      ¬ (200 ≤ 500 ∧ 500 < 300) ∧
      (createThread Sample.serverError Sample.cfg Sample.w0).1 = .ok ⟨"t1"⟩ ∧
      (appendMessages Sample.garbled Sample.cfg "t1" [Sample.hi] Sample.w0).1 = .ok () :=
  ⟨⟨_, rfl⟩, by decide, by decide, by decide⟩

/-! ## The HTTP handler -/

theorem ServeHTTP_wrong_method (E : Env) (cfg : Configuration)
    (r : OpenaiAssistant.HttpRequest) (fuel : Nat) (w : World) (h : r.Method ≠ "POST") :
    OpenaiAssistant.ServeHTTP E cfg r fuel w
      = some (OpenaiAssistant.httpError "Invalid request method" 405, w) := by
  simp only [OpenaiAssistant.ServeHTTP, h, ne_eq, not_false_eq_true, if_true]

theorem ServeHTTP_undecodable (E : Env) (cfg : Configuration) (e : String) (fuel : Nat)
    (w : World) :
    OpenaiAssistant.ServeHTTP E cfg ⟨"POST", .error e⟩ fuel w
      = some (OpenaiAssistant.httpError "Failed to decode request body" 400, w) := by
  simp [OpenaiAssistant.ServeHTTP]

/-- On a non-empty list the handler ends in a response: 200 with the
`AssistantResponse`, or 500. -/
theorem ServeHTTP_nonempty_responds (E : Env) (cfg : Configuration) (first : Message)
    (rest : List Message) (fuel : Nat) (w : World) (hfuel : 60 ≤ fuel) :
    ∃ r w', OpenaiAssistant.ServeHTTP E cfg ⟨"POST", .ok (first :: rest)⟩ fuel w
        = some (.wrote r, w') ∧
      ((r.StatusCode = 200 ∧ ∃ a, r.Body = .json a) ∨ r.StatusCode = 500) := by
  have hsend : ∀ threadID w1, ∃ r w',
      (match OpenaiAssistant.sendMessageToAssistant E cfg threadID (first :: rest) fuel w1 with
        | none => none
        | some (.panic msg, w2) => some (OpenaiAssistant.Served.panicked msg, w2)
        | some (.error _, w2) =>
          some (OpenaiAssistant.httpError "Failed to send message to assistant" 500, w2)
        | some (.ok response, w2) =>
          some (.wrote { StatusCode := 200, ContentType := "application/json",
                         Body := .json response }, w2)) = some (.wrote r, w') ∧
      ((r.StatusCode = 200 ∧ ∃ a, r.Body = .json a) ∨ r.StatusCode = 500) := by
    intro threadID w1
    obtain ⟨out, w', _, hrun, _, _, _, hnp⟩ :=
      sendAndPoll_shape E cfg cfg.OpenAIAPIKey threadID (first :: rest) fuel w1 hfuel
    rw [sendMessageToAssistant_eq, hrun]
    cases out with
    | ok a => exact ⟨_, _, rfl, Or.inl ⟨rfl, a, rfl⟩⟩
    | error e => exact ⟨_, _, rfl, Or.inr rfl⟩
    | panic msg => exact absurd rfl (hnp msg)
  simp only [OpenaiAssistant.ServeHTTP, ne_eq, not_true_eq_false, if_false,
    OpenaiAssistant.getOrCreateThreadID]
  by_cases h0 : first.ThreadID = "0"
  · simp only [h0, if_true, createThread_eq]
    cases hr : E.respond w.log (threadCreateRequest cfg) with
    | failed e => exact ⟨_, _, rfl, Or.inr rfl⟩
    | response resp =>
      cases hb : resp.body.thread with
      | error e => simp only [hb]; exact ⟨_, _, rfl, Or.inr rfl⟩
      | ok t => simp only [hb]; exact hsend _ _
  · simp only [h0, if_false]
    exact hsend _ _

/-- C7 (the code at the failing input): a POST whose body decodes to the empty
list makes `getOrCreateThreadID` index `messages[0]` out of range; the handler
panics before any remote call and writes no response. -/
theorem ServeHTTP_empty_list_panics (E : Env) (cfg : Configuration) (fuel : Nat) (w : World) :
    OpenaiAssistant.getOrCreateThreadID E cfg [] w
        = (.panic "runtime error: index out of range [0] with length 0", w) ∧
      OpenaiAssistant.ServeHTTP E cfg ⟨"POST", .ok []⟩ fuel w
        = some (.panicked "runtime error: index out of range [0] with length 0", w) := by
  constructor
  · rfl
  · simp [OpenaiAssistant.ServeHTTP, OpenaiAssistant.getOrCreateThreadID]

/-! ## The new-message event -/

/-- C8 (the code at the failing input): the guard compares the author with
`BotSettings.BotUserID` (`bot`), while replies are posted under the ID of the
user `ai-assistant` (`ai1`). Both copies of `MessageHasBeenPosted` answer the
human post with the reply `replyPost`, and when that reply comes back as an event
they call the remote API again (twelve requests in all) and post a second
reply. -/
theorem MessageHasBeenPosted_answers_own_reply :
    Sample.looping.GetUserByUsername "ai-assistant"
        = .ok { Id := Sample.replyPost.UserId, Username := "ai-assistant", Password := "",
                Email := "", Nickname := "", Roles := "" } ∧
      (PluginGo.MessageHasBeenPosted Sample.looping Sample.cfg Sample.humanPost 60
          Sample.w0).map (fun r => r.2.posts) = some [Sample.replyPost] ∧
      ((PluginGo.MessageHasBeenPosted Sample.looping Sample.cfg Sample.humanPost 60
          Sample.w0).bind
        (fun r => PluginGo.MessageHasBeenPosted Sample.looping Sample.cfg Sample.replyPost 60
          r.2)).map (fun r => (r.2.posts, r.2.log.length))
        = some ([Sample.replyPost, Sample.replyPost], 12) ∧
      (AssistantHandler.MessageHasBeenPosted Sample.looping Sample.cfg Sample.humanPost 60
          Sample.w0).map (fun r => r.2.posts) = some [Sample.replyPost] ∧
      ((AssistantHandler.MessageHasBeenPosted Sample.looping Sample.cfg Sample.humanPost 60
          Sample.w0).bind
        (fun r => AssistantHandler.MessageHasBeenPosted Sample.looping Sample.cfg
          Sample.replyPost 60 r.2)).map (fun r => (r.2.posts, r.2.log.length))
        = some ([Sample.replyPost, Sample.replyPost], 12) :=
  ⟨rfl, by decide, by decide, by decide, by decide⟩

/-- What the guard does achieve: a post whose author is `BotUserID` causes no
remote call and no post. -/
theorem MessageHasBeenPosted_ignores_bot_user (E : Env) (cfg : Configuration) (post : Post)
    (fuel : Nat) (w : World) (h : post.UserId = E.BotUserID) :
    PluginGo.MessageHasBeenPosted E cfg post fuel w = some (.ok (), w) ∧
      AssistantHandler.MessageHasBeenPosted E cfg post fuel w = some (.ok (), w) := by
  simp [PluginGo.MessageHasBeenPosted, AssistantHandler.MessageHasBeenPosted, h]

/-! ## The slash command -/

/-- C9 (the code at the failing input): on `/createai bob` the test
`args.Command == "/createai"` fails, so the empty response is returned and
`CreateUser` is not called; and whatever the command text is, the world is left
unchanged, because the only text that passes the test has one field and gets the
usage text. -/
theorem ExecuteCommand_never_creates_user (E : Env) (w : World) :
    PluginGo.ExecuteCommand E ⟨"/createai bob"⟩ w = ({ Text := "" }, w) ∧
      PluginGo.ExecuteCommand E ⟨"/createai"⟩ w = ({ Text := "Usage: /createai [username]" }, w) ∧
      ∀ args, (PluginGo.ExecuteCommand E args w).2 = w ∧
        ((PluginGo.ExecuteCommand E args w).1.Text = "Usage: /createai [username]" ∨
          (PluginGo.ExecuteCommand E args w).1.Text = "") := by
  have hfields : (PluginGo.stringsFields "/createai").length ≠ 2 := by decide
  have husage : PluginGo.ExecuteCommand E ⟨"/createai"⟩ w
      = ({ Text := "Usage: /createai [username]" }, w) := by
    simp only [PluginGo.ExecuteCommand, if_true]
    rw [dif_pos hfields]
  refine ⟨?_, husage, ?_⟩
  · have hne : ("/createai bob" : String) ≠ "/createai" := by decide
    simp only [PluginGo.ExecuteCommand, hne, if_false]
  · intro args
    by_cases hc : args.Command = "/createai"
    · have : args = ⟨"/createai"⟩ := by cases args; simp_all
      rw [this, husage]
      exact ⟨rfl, Or.inl rfl⟩
    · simp [PluginGo.ExecuteCommand, hc]

/-! ## The two copies of the pipeline -/

/-- The two copies agree on every input when the two key fields hold the same
value. -/
theorem pipelines_agree_when_keys_equal (E : Env) (cfg : Configuration)
    (messages : List Message) (fuel : Nat) (w : World)
    (hkey : cfg.OpenAIAssistantAPIKey = cfg.OpenAIAPIKey) :
    AssistantHandler.callOpenAIAssistant E cfg messages fuel w
      = OpenaiAssistant.pipeline E cfg messages fuel w := by
  cases messages with
  | nil => rfl
  | cons first rest => rw [callOpenAIAssistant_eq, pipeline_eq, hkey]

/-- C10 (the code at the failing input): with `OpenAIAPIKey = k1` and
`OpenAIAssistantAPIKey = k2`, in the end-to-end scenario, the fourth request of
`getOrCreateThreadID` + `sendMessageToAssistant` is the status poll with bearer
token `k1`, that of `callOpenAIAssistant` the status poll with bearer token `k2`;
the two request sequences differ. -/
theorem pipelines_differ_in_poll_token :
    (OpenaiAssistant.pipeline Sample.happy Sample.cfg [Sample.hi] 60 Sample.w0).map
        (fun r => r.2.log.get? 3) = some (some (statusRequest "k1" "t1" "r1")) ∧
      (AssistantHandler.callOpenAIAssistant Sample.happy Sample.cfg [Sample.hi] 60
        Sample.w0).map (fun r => r.2.log.get? 3) = some (some (statusRequest "k2" "t1" "r1")) ∧
      (OpenaiAssistant.pipeline Sample.happy Sample.cfg [Sample.hi] 60 Sample.w0).map
          (fun r => r.2.log)
        ≠ (AssistantHandler.callOpenAIAssistant Sample.happy Sample.cfg [Sample.hi] 60
            Sample.w0).map (fun r => r.2.log) := by
  decide

end AssistantPlugin
